import Mathlib

/-!
Verification development for the structured-note-analyzer repository.

The repository is a collection of serverless HTTP handlers (several near-duplicate
variants).  Each handler is embedded here as a total Lean function from its query
parameters, the process environment, and a "world" record describing the outcome of
each outbound interaction (HTTP fetches, SDK calls and JSON parses of upstream
bodies) to a result consisting of the HTTP status, the JSON response body (a record
of optional fields; `none` means the field is absent from the body) and the ordered
list of outbound calls the handler issued.

JavaScript strings are modelled as Lean `String`s; the string operations the code
uses (`trim`, `slice`, `substring`, `replace`, `toUpperCase`, `toLowerCase`,
`startsWith`, `endsWith`, `includes`, `indexOf`, `lastIndexOf`, `parseInt`,
`padStart`) are given explicit character-list models below.  `String.length` and
slicing count characters.
-/

namespace SNA

/-- Whitespace test used by the model of JavaScript `trim` (space, tab, CR, LF). -/
def isWs (c : Char) : Bool := c.isWhitespace

/-- Model of JavaScript `String.prototype.trim` on character lists. -/
def trimChars (l : List Char) : List Char :=
  ((l.dropWhile isWs).reverse.dropWhile isWs).reverse

/-- Model of JavaScript `String.prototype.trim`. -/
def jsTrim (s : String) : String := ⟨trimChars s.data⟩

/-- Does the list `l` start with the pattern `pat`? (model of `startsWith` and of
anchored regular expressions such as `^...`). -/
def startsWithL : List Char → List Char → Bool
  | [], _ => true
  | _ :: _, [] => false
  | p :: ps, c :: cs => p == c && startsWithL ps cs

/-- Does the list `l` end with the pattern `pat`? (model of `endsWith` / `...$`). -/
def endsWithL (pat l : List Char) : Bool := startsWithL pat.reverse l.reverse

/-- Does `pat` occur anywhere in the list? (model of `String.prototype.includes`
and of unanchored regular-expression tests). -/
def containsL (pat : List Char) : List Char → Bool
  | [] => startsWithL pat []
  | c :: cs => startsWithL pat (c :: cs) || containsL pat cs

/-- Model of `String.prototype.toLowerCase` (ASCII, as used on file names). -/
def jsToLower (s : String) : String := ⟨s.data.map Char.toLower⟩

/-- Model of `String.prototype.toUpperCase` (ASCII, as used on CUSIPs). -/
def jsToUpper (s : String) : String := ⟨s.data.map Char.toUpper⟩

/-- Model of `s.slice(0, n)` / `s.substring(0, n)` / `s.take`. -/
def jsTake (s : String) (n : Nat) : String := ⟨s.data.take n⟩

/-- JavaScript truthiness of an optional string: `undefined`, `null` and `""` are
falsy, every other string is truthy. -/
def truthyS : Option String → Bool
  | none => false
  | some s => !(s == "")

/-- Model of `v || null` on an optional string field. -/
def jsOrNull (v : Option String) : Option String := if truthyS v then v else none

/-- Model of `a || b || null` on optional string fields. -/
def jsOr2 (a b : Option String) : Option String := if truthyS a then a else jsOrNull b

/-- An upstream HTTP response: status code and body text. -/
structure HttpResp where
  status : Nat
  body : String
deriving DecidableEq

/-- Model of `response.ok`: status in the 200–299 range. -/
def HttpResp.ok (r : HttpResp) : Bool := 200 ≤ r.status && r.status ≤ 299

/-- Outcome of an `await fetch(...)`: either the promise rejects (network error,
modelled as a thrown message) or an HTTP response is produced. -/
inductive FetchRes where
  | thrown (msg : String)
  | resp (r : HttpResp)
deriving DecidableEq

/-- Outcome of an `await resp.json()` or SDK call: thrown error or a value. -/
inductive JsonRes (α : Type) where
  | thrown (msg : String)
  | val (a : α)
deriving DecidableEq

/-- Tags for the outbound calls a handler can issue. -/
inductive Call where
  | secSearch
  | edgarIndex
  | edgarDoc
  | htmlLink
  | secSubmissions
  | sdkSearch
  | sdkFiling
  | filingHtmlApi
  | openaiChat
deriving DecidableEq

/-- Relevant part of `process.env`. -/
structure Env where
  secApiKey : Option String := none
  openaiApiKey : Option String := none
  vercelUrl : Option String := none
  secUserAgent : Option String := none
deriving DecidableEq

/-- An entry of `index.json`'s `directory.item` array. -/
structure Item where
  name : Option String := none
deriving DecidableEq

/-- `directory.item` of an EDGAR `index.json`, when present and an array. -/
structure IndexData where
  directoryItem : Option (List Item) := none
deriving DecidableEq

/-- A filing object as returned by the sec-api.io search (any variant). -/
structure Filing where
  accessionNo : Option String := none
  formType : Option String := none
  filedAt : Option String := none
  cik : Option String := none
  companyName : Option String := none
  companyNameLong : Option String := none
  linkToHtml : Option String := none
  linkToFilingDetails : Option String := none
deriving DecidableEq

/-- The body of a sec-api.io search response: the `filings` field, `some` exactly
when the field is present (and, where the code checks `Array.isArray`, an array). -/
structure SearchData where
  filings : Option (List Filing) := none
deriving DecidableEq

/-- The `filingMeta` object assembled by the handlers.  Each handler fills the
fields it outputs; the others stay `none` (absent). -/
structure FilingMeta where
  accessionNo : Option String := none
  formType : Option String := none
  filedAt : Option String := none
  cik : Option String := none
  companyName : Option String := none
  linkToFilingDetails : Option String := none
  linkToHtml : Option String := none
deriving DecidableEq

/-- A candidate filing collected from the SEC submissions API (part_004, variant 2). -/
structure Candidate where
  accessionNo : Option String := none
  filedAt : Option String := none
  primaryDoc : Option String := none
deriving DecidableEq

/-- The body returned by `/api/filing-html`, as seen by `/api/parse-filing`. -/
structure FilingJson where
  htmlPreview : Option String := none
deriving DecidableEq

/-- `choices[0].message.content` of an OpenAI chat response, when it is a string. -/
structure OpenAiData where
  content : Option String := none
deriving DecidableEq

/-- A JSON response body.  Every field is optional: `none` means the handler did
not put the field into the body at all, `some none` (for doubly-optional fields)
means the field is present with value `null`. -/
structure RespBody where
  message : Option String := none
  error : Option String := none
  details : Option String := none
  status : Option Nat := none
  body : Option String := none
  raw : Option String := none
  rawSearch : Option SearchData := none
  source : Option String := none
  cusip : Option String := none
  cik : Option String := none
  accessionNo : Option String := none
  filingsCount : Option Nat := none
  filingMeta : Option (Option FilingMeta) := none
  filingRaw : Option Filing := none
  candMeta : Option Candidate := none
  htmlUrl : Option (Option String) := none
  htmlPreview : Option (Option String) := none
  htmlFileName : Option String := none
  htmlLength : Option Nat := none
  htmlSnippet : Option String := none
  htmlPreviewLength : Option Nat := none
  files : Option (List (Option String)) := none
  rawResponseSnippet : Option String := none
  indexUrl : Option String := none
  filingJson : Option FilingJson := none
  assistantContent : Option String := none
  note : Option (Option String) := none
deriving DecidableEq

/-- The outcome of one handler invocation: HTTP status, JSON body, and the
ordered list of outbound calls that were issued. -/
structure HResult where
  status : Nat
  body : RespBody
  calls : List Call
deriving DecidableEq

/-- Model of `f.name || ""`. -/
def nameOf (it : Item) : String := it.name.getD ""

/-- Model of `/\.htm$/i.test s`. -/
def testHtm (s : String) : Bool := endsWithL ".htm".data (jsToLower s).data

/-- Model of `/424b/i.test s`. -/
def test424b (s : String) : Bool := containsL "424b".data (jsToLower s).data

/-- Model of `/\.html?$/i.test s`. -/
def testHtml (s : String) : Bool :=
  endsWithL ".htm".data (jsToLower s).data || endsWithL ".html".data (jsToLower s).data

/-- Model of `/424b2/i.test s`. -/
def test424b2 (s : String) : Bool := containsL "424b2".data (jsToLower s).data

/-- Model of `/fwp/i.test s`. -/
def testFwp (s : String) : Bool := containsL "fwp".data (jsToLower s).data

/-- Primary-document selector of `fetchEdgarHtml` in `src/api/analyze-cusip.js`:
`items.find(htm && 424b) || items.find(htm) || items[0]`. -/
def selectPrimaryAnalyze (items : List Item) : Option Item :=
  match items.find? (fun f => testHtm (nameOf f) && test424b (nameOf f)) with
  | some d => some d
  | none =>
    match items.find? (fun f => testHtm (nameOf f)) with
    | some d => some d
    | none => items.head?

/-- Document selector of `src/api/filing-html.js`: prefer `.htm/.html` with
`424b2`, then with `fwp`, then any `.htm/.html`; `none` when no HTML-named file
exists (the handler then responds 404). -/
def selectDocFilingHtml (items : List Item) : Option Item :=
  match items.find? (fun it => testHtml (nameOf it) && test424b2 (nameOf it)) with
  | some d => some d
  | none =>
    match items.find? (fun it => testHtml (nameOf it) && testFwp (nameOf it)) with
    | some d => some d
    | none => items.find? (fun it => testHtml (nameOf it))

/-- Model of `accessionNo.replace(dashRegex, "")`: remove every dash. -/
def stripDashes (s : String) : String := ⟨s.data.filter (fun c => !(c == '-'))⟩

/-- Decimal-digit test (the characters JavaScript `parseInt(s, 10)` consumes). -/
def isDigitCh (c : Char) : Bool :=
  c == '0' || c == '1' || c == '2' || c == '3' || c == '4' ||
  c == '5' || c == '6' || c == '7' || c == '8' || c == '9'

/-- Numeric value of a decimal digit character. -/
def digitVal (c : Char) : Nat := c.toNat - 48

/-- Decimal digit character for a value below 10. -/
def digitChar : Nat → Char
  | 0 => '0' | 1 => '1' | 2 => '2' | 3 => '3' | 4 => '4'
  | 5 => '5' | 6 => '6' | 7 => '7' | 8 => '8' | 9 => '9'
  | _ => '*'

/-- Value of a big-endian list of decimal digit characters. -/
def charsVal (l : List Char) : Nat := Nat.ofDigits 10 ((l.map digitVal).reverse)

/-- Model of `parseInt(s, 10)` on the non-negative inputs arising here: skip
leading whitespace, read the longest run of decimal digits, `none` (NaN) when
there is no digit. -/
def jsParseIntNat (s : String) : Option Nat :=
  let ds := (s.data.dropWhile isWs).takeWhile isDigitCh
  if ds.isEmpty then none else some (charsVal ds)

/-- Big-endian decimal rendering of a positive natural, with explicit fuel so the
kernel can evaluate it. -/
def renderAux : Nat → Nat → List Char
  | 0, _ => []
  | fuel + 1, n => if n = 0 then [] else renderAux fuel (n / 10) ++ [digitChar (n % 10)]

/-- Model of JavaScript `String(n)` for a natural number. -/
def natToStr (n : Nat) : String := if n = 0 then "0" else ⟨renderAux n n⟩

/-- Model of `String(parseInt(s, 10))`, the CIK normalization used by
`fetchEdgarHtml`, `filing-html` and `parse-filing`. -/
def jsStringOfParseInt (s : String) : String :=
  match jsParseIntNat s with
  | none => "NaN"
  | some n => natToStr n

/-- Specification reading of the issuer normalization (section 4.2 of the spec:
"issuer identifier is normalized by stripping leading zeros"). -/
def dropLeadingZeros (s : String) : String := ⟨s.data.dropWhile (fun c => c == '0')⟩

/-- The EDGAR storage path derived from a CIK and an accession number, shared by
`fetchEdgarHtml` (analyze-cusip), `filing-html` and `parse-filing`. -/
def edgarBasePath (cik accessionNo : String) : String :=
  "https://www.sec.gov/Archives/edgar/data/" ++ jsStringOfParseInt cik ++ "/" ++
    stripDashes accessionNo

/-- The three backticks of a markdown code fence. -/
def fenceChars : List Char := ['`', '`', '`']

/-- Model of the leading-fence `replace` of `src/api/parse-filing.js`
(variant 1): drop the three backticks, drop a case-insensitive `json` tag if
present, then the following whitespace (applied only when the text starts with
a fence, as the anchored regex requires). -/
def stripLeadV1 (l : List Char) : List Char :=
  let r0 := l.drop 3
  let r1 := if (r0.take 4).map Char.toLower == "json".data then r0.drop 4 else r0
  r1.dropWhile isWs

/-- Model of the trailing-fence `replace` of `src/api/parse-filing.js`
(variant 1): remove a final three-backtick fence if the text ends with one. -/
def stripTrailV1 (l : List Char) : List Char :=
  if endsWithL fenceChars l then l.take (l.length - 3) else l

/-- Fence-stripping step of `src/api/parse-filing.js` (variant 1):
`trim`, then if the text starts with three backticks remove a leading
fence (optionally tagged `json`, case-insensitively) and a trailing fence,
then `trim` again. -/
def stripFencesV1 (content : String) : String :=
  let t := jsTrim content
  if startsWithL fenceChars t.data then jsTrim ⟨stripTrailV1 (stripLeadV1 t.data)⟩
  else t

/-- Index of the first newline in a list, if any (model of `indexOf("\n")`). -/
def findNl : List Char → Option Nat
  | [] => none
  | c :: cs => if c == '\n' then some 0 else (findNl cs).map (· + 1)

/-- Is the fence pattern present at offset `i`? -/
def fenceAt (l : List Char) (i : Nat) : Bool := startsWithL fenceChars (l.drop i)

/-- Scan offsets `i, i-1, …, 0` for the last fence occurrence. -/
def lastFenceAux (l : List Char) : Nat → Option Nat
  | 0 => if fenceAt l 0 then some 0 else none
  | i + 1 => if fenceAt l (i + 1) then some (i + 1) else lastFenceAux l i

/-- Model of `lastIndexOf("```")`. -/
def lastFenceIdx (l : List Char) : Option Nat := lastFenceAux l l.length

/-- Model of the regex class `[a-zA-Z0-9]`. -/
def isAlnum (c : Char) : Bool := c.isAlpha || c.isDigit

/-- Core of `extractJsonFromText` (`src/api/parse-filing.js`, variant 3), applied
when the trimmed text starts with a fence: drop through the first newline (or,
with no newline, strip a leading tagged fence), then cut at the last fence
occurrence if any. -/
def extractCore (l : List Char) : List Char :=
  let t1 :=
    match findNl l with
    | some i => l.drop (i + 1)
    | none => ((l.drop 3).dropWhile isAlnum).dropWhile isWs
  match lastFenceIdx t1 with
  | some j => t1.take j
  | none => t1

/-- `extractJsonFromText` of `src/api/parse-filing.js` (variant 3): trim; if the
text starts with a fence, drop through the first newline (or, with no newline,
strip a leading tagged fence), cut at the last fence if any, trim. -/
def extractJsonFromText (text : String) : String :=
  let trimmed := jsTrim text
  if startsWithL fenceChars trimmed.data then jsTrim ⟨extractCore trimmed.data⟩
  else jsTrim ⟨trimmed.data⟩

/-- Shape of a model answer wrapped in markdown code fences with language tag
`tag` (empty for a bare fence): three backticks, the tag, a newline, the JSON
body, a newline and the closing fence. -/
def mkFenced (tag body : String) : String := "```" ++ tag ++ "\n" ++ body ++ "\n```"

/-- Outcome of `fetchEdgarHtml` in `src/api/analyze-cusip.js`: a thrown error
(caught and swallowed by the caller), `null`, or the document URL and preview. -/
inductive EdgarOutcome where
  | thrown (msg : String)
  | nullRes
  | ok (htmlUrl htmlPreview : String)
deriving DecidableEq

/-- Upstream world of `fetchEdgarHtml`: the `index.json` fetch, the parse of its
body, and the document fetch. -/
structure EdgarWorld where
  indexFetch : FetchRes
  indexJson : JsonRes IndexData
  htmlFetch : FetchRes
deriving DecidableEq

/-- Embedding of `fetchEdgarHtml` (`src/api/analyze-cusip.js`, lines 123–194).
Note that a non-success `index.json` or document response makes it return `null`
(lines 139–142 and 183–186); no status is propagated. -/
def fetchEdgarHtml (cikRaw accessionNo : String) (w : EdgarWorld) :
    EdgarOutcome × List Call :=
  let base := edgarBasePath cikRaw accessionNo
  match w.indexFetch with
  | FetchRes.thrown m => (EdgarOutcome.thrown m, [Call.edgarIndex])
  | FetchRes.resp r =>
    if !r.ok then (EdgarOutcome.nullRes, [Call.edgarIndex])
    else
      match w.indexJson with
      | JsonRes.thrown m => (EdgarOutcome.thrown m, [Call.edgarIndex])
      | JsonRes.val d =>
        let items := d.directoryItem.getD []
        if items.isEmpty then (EdgarOutcome.nullRes, [Call.edgarIndex])
        else
          match selectPrimaryAnalyze items with
          | none => (EdgarOutcome.nullRes, [Call.edgarIndex])
          | some p =>
            if !truthyS p.name then (EdgarOutcome.nullRes, [Call.edgarIndex])
            else
              let htmlUrl := base ++ "/" ++ nameOf p
              match w.htmlFetch with
              | FetchRes.thrown m => (EdgarOutcome.thrown m, [Call.edgarIndex, Call.edgarDoc])
              | FetchRes.resp hr =>
                if !hr.ok then (EdgarOutcome.nullRes, [Call.edgarIndex, Call.edgarDoc])
                else (EdgarOutcome.ok htmlUrl (jsTake hr.body 2000),
                      [Call.edgarIndex, Call.edgarDoc])

/-- Upstream world of the `analyze-cusip` handler (variant 1): the sec-api.io
full-text-search fetch, the `JSON.parse` of its body (`none` = syntax error) and
the EDGAR world used by `fetchEdgarHtml`. -/
structure AnalyzeWorld where
  searchFetch : FetchRes
  searchParse : Option SearchData
  edgar : EdgarWorld
deriving DecidableEq

/-- Embedding of the default handler of `src/api/analyze-cusip.js` (variant 1,
lines 1–117). -/
def analyzeCusipV1 (qCusip : Option String) (env : Env) (w : AnalyzeWorld) : HResult :=
  if !truthyS qCusip then
    { status := 400
      body := { message := some "CUSIP missing in query string, e.g. ?cusip=48136H7D4" }
      calls := [] }
  else
    let cusip := qCusip.getD ""
    if !truthyS env.secApiKey then
      { status := 500
        body := { message := some "SEC_API_KEY environment variable is not set in Vercel." }
        calls := [] }
    else
      match w.searchFetch with
      | FetchRes.thrown m =>
        { status := 500
          body := { message := some "Internal server error in /api/analyze-cusip"
                    error := some m }
          calls := [Call.secSearch] }
      | FetchRes.resp r =>
        if !r.ok then
          { status := r.status
            body := { message := some "sec-api.io returned a non-OK status"
                      status := some r.status, body := some r.body }
            calls := [Call.secSearch] }
        else
          match w.searchParse with
          | none =>
            { status := 500
              body := { message := some "Could not parse JSON from sec-api.io"
                        raw := some r.body }
              calls := [Call.secSearch] }
          | some data =>
            let filings := data.filings.getD []
            if filings.isEmpty then
              { status := 404
                body := { source := some "sec-api.io", cusip := some cusip
                          filingsCount := some 0, filingMeta := some none
                          message := some "No filings found for this CUSIP (full-text search)."
                          rawSearch := some data }
                calls := [Call.secSearch] }
            else
              let filing := filings.headD {}
              let accessionNo := jsOrNull filing.accessionNo
              let cik := jsOrNull filing.cik
              let er :=
                if truthyS accessionNo && truthyS cik then
                  fetchEdgarHtml (cik.getD "") (accessionNo.getD "") w.edgar
                else (EdgarOutcome.nullRes, [])
              let htmlUrl : Option String :=
                match er.1 with
                | EdgarOutcome.ok u _ => some u
                | _ => none
              let htmlPreview : Option String :=
                match er.1 with
                | EdgarOutcome.ok _ p => some p
                | _ => none
              { status := 200
                body := { source := some "sec-api.io", cusip := some cusip
                          filingsCount := some filings.length
                          filingMeta := some (some
                            { accessionNo := accessionNo
                              formType := jsOrNull filing.formType
                              filedAt := jsOrNull filing.filedAt
                              cik := cik
                              companyName := jsOr2 filing.companyNameLong filing.companyName })
                          htmlUrl := some htmlUrl
                          htmlPreview := some htmlPreview
                          message := some (if truthyS htmlUrl then
                              "Found at least one filing containing this CUSIP and fetched HTML from EDGAR."
                            else
                              "Found at least one filing containing this CUSIP via full-text search, but HTML fetch may have failed.") }
                calls := Call.secSearch :: er.2 }

/-- Upstream world of `src/api/filing-html.js`: the `index.json` fetch, the parse
of its body, and the document fetch. -/
structure FHWorld where
  indexFetch : FetchRes
  indexJson : JsonRes IndexData
  htmlFetch : FetchRes
deriving DecidableEq

/-- The truncation marker appended by `filing-html` when the document exceeds the
preview length. -/
def truncMarker : String := "\n...[truncated]..."

/-- Embedding of the handler of `src/api/filing-html.js`. -/
def filingHtmlHandler (qAccessionNo qCik : Option String) (w : FHWorld) : HResult :=
  if !truthyS qAccessionNo || !truthyS qCik then
    { status := 400
      body := { message := some "Missing required query params. Example: /api/filing-html?accessionNo=0001213900-25-104551&cik=19617" }
      calls := [] }
  else
    let accessionNo := qAccessionNo.getD ""
    let cik := qCik.getD ""
    let cikTrimmed := jsStringOfParseInt cik
    let basePath := edgarBasePath cik accessionNo
    let indexUrl := basePath ++ "/index.json"
    match w.indexFetch with
    | FetchRes.thrown m =>
      { status := 500
        body := { message := some "Internal server error in /api/filing-html", error := some m }
        calls := [Call.edgarIndex] }
    | FetchRes.resp r =>
      if !r.ok then
        { status := r.status
          body := { message := some "Failed to fetch SEC index.json"
                    status := some r.status, indexUrl := some indexUrl, body := some r.body }
          calls := [Call.edgarIndex] }
      else
        match w.indexJson with
        | JsonRes.thrown m =>
          { status := 500
            body := { message := some "Internal server error in /api/filing-html", error := some m }
            calls := [Call.edgarIndex] }
        | JsonRes.val d =>
          let items := d.directoryItem.getD []
          if items.isEmpty then
            { status := 404
              body := { message := some "No files listed in SEC index.json for this filing."
                        indexUrl := some indexUrl }
              calls := [Call.edgarIndex] }
          else
            match selectDocFilingHtml items with
            | none =>
              { status := 404
                body := { message := some "Could not find an HTML document for this filing in index.json."
                          indexUrl := some indexUrl
                          files := some (items.map (fun it => it.name)) }
                calls := [Call.edgarIndex] }
            | some doc =>
              let htmlFileName := nameOf doc
              let htmlUrl := basePath ++ "/" ++ htmlFileName
              match w.htmlFetch with
              | FetchRes.thrown m =>
                { status := 500
                  body := { message := some "Internal server error in /api/filing-html", error := some m }
                  calls := [Call.edgarIndex, Call.edgarDoc] }
              | FetchRes.resp hr =>
                if !hr.ok then
                  { status := hr.status
                    body := { message := some "Failed to fetch the filing HTML from sec.gov"
                              status := some hr.status, htmlUrl := some (some htmlUrl)
                              body := some hr.body }
                    calls := [Call.edgarIndex, Call.edgarDoc] }
                else
                  let htmlText := hr.body
                  let htmlPreview :=
                    if htmlText.data.length > 4000 then jsTake htmlText 4000 ++ truncMarker
                    else htmlText
                  { status := 200
                    body := { source := some "sec.gov", accessionNo := some accessionNo
                              cik := some cikTrimmed
                              htmlUrl := some (some htmlUrl)
                              htmlFileName := some htmlFileName
                              htmlPreview := some (some htmlPreview)
                              htmlLength := some htmlText.data.length
                              message := some "Fetched filing HTML from sec.gov successfully." }
                    calls := [Call.edgarIndex, Call.edgarDoc] }

/-- Upstream world of `src/unnamed/part_003`: the full-text-search fetch, the
parse of its body, and the optional `linkToHtml` preview fetch. -/
structure P3World where
  ftFetch : FetchRes
  ftJson : JsonRes SearchData
  htmlFetch : FetchRes
deriving DecidableEq

/-- Embedding of the handler of `src/unnamed/part_003` (direct HTTP variant of
the locator).  A non-success search response is mapped to a fixed 502 with the
upstream status and body inside the JSON body. -/
def part003Handler (qCusip : Option String) (env : Env) (w : P3World) : HResult :=
  if !truthyS qCusip then
    { status := 400, body := { message := some "CUSIP query param is required" }, calls := [] }
  else
    let cusip := qCusip.getD ""
    if !truthyS env.secApiKey then
      { status := 500
        body := { message := some "SEC_API_KEY is not set in environment variables on Vercel" }
        calls := [] }
    else
      match w.ftFetch with
      | FetchRes.thrown m =>
        { status := 500
          body := { message := some "Internal server error", error := some m }
          calls := [Call.secSearch] }
      | FetchRes.resp r =>
        if !r.ok then
          { status := 502
            body := { message := some "Error calling sec-api full-text-search"
                      status := some r.status, body := some r.body }
            calls := [Call.secSearch] }
        else
          match w.ftJson with
          | JsonRes.thrown m =>
            { status := 500
              body := { message := some "Internal server error", error := some m }
              calls := [Call.secSearch] }
          | JsonRes.val d =>
            let filings := d.filings.getD []
            if filings.isEmpty then
              { status := 404
                body := { source := some "sec-api.io", cusip := some cusip
                          filingsCount := some 0, filingMeta := some none
                          message := some "No 424B2 / FWP filings found for this CUSIP (full-text search)." }
                calls := [Call.secSearch] }
            else
              let latest := filings.headD {}
              let meta : FilingMeta :=
                { accessionNo := latest.accessionNo, formType := latest.formType
                  filedAt := latest.filedAt, cik := latest.cik
                  companyName := latest.companyName
                  linkToFilingDetails := latest.linkToFilingDetails
                  linkToHtml := latest.linkToHtml }
              let pr :
                  Option String × List Call :=
                if truthyS latest.linkToHtml then
                  match w.htmlFetch with
                  | FetchRes.thrown _ => (none, [Call.htmlLink])
                  | FetchRes.resp hr =>
                    if hr.ok then
                      (some (if hr.body.data.length > 5000 then jsTake hr.body 5000 ++ "..."
                             else hr.body),
                       [Call.htmlLink])
                    else (none, [Call.htmlLink])
                else (none, [])
              { status := 200
                body := { source := some "sec-api.io", cusip := some cusip
                          filingsCount := some filings.length
                          filingMeta := some (some meta)
                          htmlPreview := some pr.1
                          message := some "Found at least one filing containing this CUSIP via full-text search." }
                calls := Call.secSearch :: pr.2 }

/-- Upstream world of `src/unnamed/part_004`, variant 1: the full-text-search
fetch, the parse of its body, and an oracle for `JSON.stringify(data)` (the
serialized form of the parsed body, used only in the zero-result snippet). -/
structure P4AWorld where
  searchFetch : FetchRes
  searchJson : JsonRes SearchData
  dataStr : String
deriving DecidableEq

/-- Embedding of `src/unnamed/part_004`, variant 1 (direct HTTP locator).  A
non-success search response is mapped to a fixed 500; the zero-result 404 body
has no `filingsCount` and no `filingMeta` field. -/
def part004v1Handler (qCusip : Option String) (env : Env) (w : P4AWorld) : HResult :=
  if !truthyS qCusip then
    { status := 400, body := { error := some "Missing ?cusip= query parameter" }, calls := [] }
  else
    let cusip := qCusip.getD ""
    if !truthyS env.secApiKey then
      { status := 500
        body := { error := some "SEC_API_KEY environment variable is not set on Vercel." }
        calls := [] }
    else
      match w.searchFetch with
      | FetchRes.thrown m =>
        { status := 500
          body := { message := some "Internal server error", error := some m }
          calls := [Call.secSearch] }
      | FetchRes.resp r =>
        if !r.ok then
          { status := 500
            body := { message := some "SEC-API full-text search HTTP error"
                      status := some r.status, body := some r.body }
            calls := [Call.secSearch] }
        else
          match w.searchJson with
          | JsonRes.thrown m =>
            { status := 500
              body := { message := some "Internal server error", error := some m }
              calls := [Call.secSearch] }
          | JsonRes.val d =>
            let filings := d.filings.getD []
            if filings.isEmpty then
              { status := 404
                body := { source := some "sec-api.io", cusip := some cusip
                          message := some "No 424B2 / FWP filings found for this CUSIP via full-text search."
                          rawResponseSnippet := some (jsTake w.dataStr 500) }
                calls := [Call.secSearch] }
            else
              let first := filings.headD {}
              { status := 200
                body := { source := some "sec-api.io", cusip := some cusip
                          filingsCount := some filings.length
                          filingMeta := some (some
                            { accessionNo := first.accessionNo, formType := first.formType
                              filedAt := first.filedAt, companyName := first.companyName
                              cik := first.cik
                              linkToFilingDetails := first.linkToFilingDetails
                              linkToHtml := first.linkToHtml })
                          message := some "Found at least one filing containing this CUSIP via full-text search." }
                calls := [Call.secSearch] }

/-- The static CUSIP-prefix → CIK map shared by `part_000` (variant 1),
`part_004` (variant 2) and `part_005`. -/
def issuerMap : List (String × String) :=
  [("48136H", "19617"), ("48134K", "19617"), ("46647P", "19617")]

/-- Lookup in `issuerMap`. -/
def issuerLookup (k : String) : Option String :=
  (issuerMap.find? (fun kv => kv.fst == k)).map Prod.snd

/-- Model of `cik.toString().padStart(10, "0")`. -/
def padCik10 (s : String) : String := ⟨List.replicate (10 - s.data.length) '0' ++ s.data⟩

/-- The `recent` object of the SEC submissions API (`part_004`, variant 2).
`form` and `accessionNumber` are `some` exactly when present (the code checks
their truthiness); `filingDate` and `primaryDoc` are read by index only. -/
structure RecentData where
  form : Option (List String) := none
  accessionNumber : Option (List String) := none
  filingDate : List String := []
  primaryDoc : List String := []
deriving DecidableEq

/-- Body of a SEC submissions response: `filings.recent` when present. -/
structure SubsData where
  recent : Option RecentData := none
deriving DecidableEq

/-- Model of the candidate-collection loop of `part_004`, variant 2: keep the
indices whose form is `424B2` or `FWP`. -/
def collectCandidates (forms accNos fDates pDocs : List String) : List Candidate :=
  (List.range forms.length).filterMap (fun i =>
    let form := forms.getD i ""
    if form == "424B2" || form == "FWP" then
      some { accessionNo := accNos.get? i, filedAt := fDates.get? i, primaryDoc := pDocs.get? i }
    else none)

/-- Result of the candidate-scanning loop of `part_004`, variant 2. -/
inductive ScanRes where
  | found (c : Candidate) (html : String)
  | notFound
  | thrown (msg : String)
deriving DecidableEq

/-- Embedding of the candidate-scanning loop of `part_004`, variant 2: fetch each
candidate's primary document (one `FetchRes` per candidate, in order), skip
non-success responses, stop at the first document whose upper-cased HTML contains
the (already upper-cased) CUSIP.  A missing `accessionNo` makes the JavaScript
`replace` call throw. -/
def scanCandidates (cusipU : String) : List Candidate → List FetchRes → ScanRes × List Call
  | [], _ => (ScanRes.notFound, [])
  | c :: rest, fetches =>
    match c.accessionNo with
    | none => (ScanRes.thrown "TypeError: cannot read accessionNo of undefined", [])
    | some _ =>
      match fetches with
      | [] => (ScanRes.thrown "fetch failed", [Call.edgarDoc])
      | f :: fs =>
        match f with
        | FetchRes.thrown m => (ScanRes.thrown m, [Call.edgarDoc])
        | FetchRes.resp hr =>
          if !hr.ok then
            let next := scanCandidates cusipU rest fs
            (next.1, Call.edgarDoc :: next.2)
          else
            if containsL cusipU.data (jsToUpper hr.body).data then
              (ScanRes.found c hr.body, [Call.edgarDoc])
            else
              let next := scanCandidates cusipU rest fs
              (next.1, Call.edgarDoc :: next.2)

/-- Upstream world of `part_004`, variant 2: the submissions fetch, the parse of
its body, and one fetch result per scanned candidate. -/
structure P4BWorld where
  subsFetch : FetchRes
  subsJson : JsonRes SubsData
  candFetches : List FetchRes
deriving DecidableEq

/-- Embedding of `src/unnamed/part_004`, variant 2 (map-based locator over the
SEC submissions API).  The CUSIP is trimmed and upper-cased before the 6-character
issuer-map lookup. -/
def part004v2Handler (qCusip : Option String) (_env : Env) (w : P4BWorld) : HResult :=
  if !truthyS qCusip then
    { status := 400, body := { message := some "CUSIP missing" }, calls := [] }
  else
    let cusip := jsToUpper (jsTrim (qCusip.getD ""))
    let pfx := jsTake cusip 6
    match issuerLookup pfx with
    | none =>
      { status := 404
        body := { message := some ("Unknown issuer prefix " ++ pfx ++ ". Add to issuerMap in analyze-cusip.js.")
                  cusip := some cusip }
        calls := [] }
    | some cikShort =>
      match w.subsFetch with
      | FetchRes.thrown m =>
        { status := 500
          body := { message := some "Internal server error", error := some m }
          calls := [Call.secSubmissions] }
      | FetchRes.resp r =>
        if !r.ok then
          { status := 502
            body := { message := some "Error calling SEC submissions API"
                      status := some r.status, body := some r.body }
            calls := [Call.secSubmissions] }
        else
          match w.subsJson with
          | JsonRes.thrown m =>
            { status := 500
              body := { message := some "Internal server error", error := some m }
              calls := [Call.secSubmissions] }
          | JsonRes.val subs =>
            match subs.recent with
            | none =>
              { status := 404
                body := { message := some "No recent filings found in SEC submissions data"
                          cusip := some cusip, cik := some cikShort }
                calls := [Call.secSubmissions] }
            | some recent =>
              match recent.form, recent.accessionNumber with
              | some forms, some accNos =>
                let candidates := collectCandidates forms accNos recent.filingDate recent.primaryDoc
                if candidates.isEmpty then
                  { status := 404
                    body := { message := some "No 424B2 / FWP filings found for this issuer in recent submissions."
                              cusip := some cusip, cik := some cikShort }
                    calls := [Call.secSubmissions] }
                else
                  let scan := scanCandidates cusip candidates w.candFetches
                  match scan.1 with
                  | ScanRes.thrown m =>
                    { status := 500
                      body := { message := some "Internal server error", error := some m }
                      calls := Call.secSubmissions :: scan.2 }
                  | ScanRes.notFound =>
                    { status := 404
                      body := { source := some "sec.gov", cusip := some cusip, cik := some cikShort
                                message := some "Scanned recent 424B2/FWP filings for this issuer but did not find this CUSIP in the HTML." }
                      calls := Call.secSubmissions :: scan.2 }
                  | ScanRes.found cand html =>
                    let preview := if html.data.length > 1200 then jsTake html 1200 ++ "..." else html
                    { status := 200
                      body := { source := some "sec.gov", cusip := some cusip, cik := some cikShort
                                candMeta := some cand
                                htmlPreview := some (some preview)
                                message := some "Found a pricing supplement whose HTML contains this CUSIP." }
                      calls := Call.secSubmissions :: scan.2 }
              | _, _ =>
                { status := 404
                  body := { message := some "No recent filings found in SEC submissions data"
                            cusip := some cusip, cik := some cikShort }
                  calls := [Call.secSubmissions] }

/-- Result of the filing-scanning loop of `part_000` variant 1 / `part_005`. -/
inductive LoopRes where
  | found (f : Filing) (html : String)
  | notFound
  | thrown (msg : String)
deriving DecidableEq

/-- Embedding of the filing loop of `part_000` variant 1 / `part_005`: call
`secApi.filing` on each filing (one `JsonRes` per filing, in order; `val none`
models a null/undefined HTML result) and stop at the first HTML containing the
CUSIP (case-sensitively). -/
def sdkFilingLoop (cusip : String) :
    List Filing → List (JsonRes (Option String)) → LoopRes × List Call
  | [], _ => (LoopRes.notFound, [])
  | f :: rest, results =>
    match results with
    | [] => (LoopRes.thrown "sdk error", [Call.sdkFiling])
    | r :: rs =>
      match r with
      | JsonRes.thrown m => (LoopRes.thrown m, [Call.sdkFiling])
      | JsonRes.val h =>
        match h with
        | some html =>
          if containsL cusip.data html.data then (LoopRes.found f html, [Call.sdkFiling])
          else
            let next := sdkFilingLoop cusip rest rs
            (next.1, Call.sdkFiling :: next.2)
        | none =>
          let next := sdkFilingLoop cusip rest rs
          (next.1, Call.sdkFiling :: next.2)

/-- Upstream world of `part_000` variant 1 / `part_005`: the SDK search result
and one SDK filing result per scanned filing.  Note: the SDK client is built at
module load from `process.env.SEC_API_KEY` with no presence check, so the
handler never inspects the key. -/
structure P0World where
  search : JsonRes SearchData
  filingResults : List (JsonRes (Option String))
deriving DecidableEq

/-- Embedding of `src/unnamed/part_000`, variant 1 (map-based SDK locator).
There is no API-key check: with the key absent the module still constructs the
SDK client and the handler still issues the search call. -/
def part000v1Handler (qCusip : Option String) (w : P0World) : HResult :=
  if !truthyS qCusip then
    { status := 400, body := { error := some "CUSIP missing" }, calls := [] }
  else
    let cusip := qCusip.getD ""
    let pfx := jsToUpper (jsTake cusip 6)
    match issuerLookup pfx with
    | none =>
      { status := 404
        body := { message := some ("Unknown issuer prefix " ++ pfx ++ ". Add to issuerMap.")
                  cusip := some cusip }
        calls := [] }
    | some cik =>
      match w.search with
      | JsonRes.thrown m =>
        { status := 500
          body := { message := some "Internal server error", error := some m }
          calls := [Call.sdkSearch] }
      | JsonRes.val d =>
        if (d.filings.getD []).isEmpty then
          { status := 404
            body := { message := some "No pricing supplements found for issuer"
                      cusip := some cusip, cik := some cik }
            calls := [Call.sdkSearch] }
        else
          let loop := sdkFilingLoop cusip (d.filings.getD []) w.filingResults
          match loop.1 with
          | LoopRes.thrown m =>
            { status := 500
              body := { message := some "Internal server error", error := some m }
              calls := Call.sdkSearch :: loop.2 }
          | LoopRes.notFound =>
            { status := 404
              body := { message := some "CUSIP not found in any recent pricing supplements for issuer"
                        cusip := some cusip, cik := some cik }
              calls := Call.sdkSearch :: loop.2 }
          | LoopRes.found f html =>
            { status := 200
              body := { source := some "sec-api.io", cusip := some cusip, cik := some cik
                        filingRaw := some f
                        htmlPreview := some (some (jsTake html 1000 ++ "..."))
                        message := some "Found pricing supplement containing this CUSIP" }
              calls := Call.sdkSearch :: loop.2 }

/-- Embedding of `src/unnamed/part_005` (map-based SDK locator, second copy;
differs from `part_000` variant 1 only in messages and in the 2000-character
`htmlSnippet` captured without a trailing ellipsis). -/
def part005Handler (qCusip : Option String) (w : P0World) : HResult :=
  if !truthyS qCusip then
    { status := 400, body := { error := some "CUSIP missing" }, calls := [] }
  else
    let cusip := qCusip.getD ""
    let pfx := jsToUpper (jsTake cusip 6)
    match issuerLookup pfx with
    | none =>
      { status := 404
        body := { message := some ("Unknown issuer prefix " ++ pfx ++ ". Add to issuerMap.")
                  cusip := some cusip }
        calls := [] }
    | some cik =>
      match w.search with
      | JsonRes.thrown m =>
        { status := 500
          body := { message := some "Internal server error", error := some m }
          calls := [Call.sdkSearch] }
      | JsonRes.val d =>
        if (d.filings.getD []).isEmpty then
          { status := 404
            body := { message := some "No pricing supplements found for this issuer"
                      cusip := some cusip, cik := some cik }
            calls := [Call.sdkSearch] }
        else
          let loop := sdkFilingLoop cusip (d.filings.getD []) w.filingResults
          match loop.1 with
          | LoopRes.thrown m =>
            { status := 500
              body := { message := some "Internal server error", error := some m }
              calls := Call.sdkSearch :: loop.2 }
          | LoopRes.notFound =>
            { status := 404
              body := { message := some "CUSIP not found in any recent pricing supplements"
                        cusip := some cusip, cik := some cik }
              calls := Call.sdkSearch :: loop.2 }
          | LoopRes.found f html =>
            { status := 200
              body := { source := some "sec-api.io", cusip := some cusip, cik := some cik
                        filingRaw := some f
                        htmlSnippet := some (jsTake html 2000)
                        message := some "Found pricing supplement containing this CUSIP" }
              calls := Call.sdkSearch :: loop.2 }

/-- Upstream world of `src/unnamed/part_002`: the SDK `getFilings` call (`val
none` models a null/undefined filings list). -/
structure P2World where
  getFilings : JsonRes (Option (List Filing))
deriving DecidableEq

/-- Embedding of `src/unnamed/part_002` (SDK locator).  The missing-`cusip` 400
and the catch-all 500 both use an `error` field and carry no `message` field. -/
def part002Handler (qCusip : Option String) (_env : Env) (w : P2World) : HResult :=
  if !truthyS qCusip then
    { status := 400, body := { error := some "Missing cusip query parameter." }, calls := [] }
  else
    let cusip := qCusip.getD ""
    match w.getFilings with
    | JsonRes.thrown m =>
      { status := 500
        body := { error := some "Internal server error talking to sec-api.io", details := some m }
        calls := [Call.sdkSearch] }
    | JsonRes.val fl =>
      if (fl.getD []).isEmpty then
        { status := 404
          body := { source := some "sec-api.io", cusip := some cusip
                    filingMeta := some none, note := some none
                    message := some "No 424B2 / FWP filings found for this CUSIP via full-text search." }
          calls := [Call.sdkSearch] }
      else
        let filing := (fl.getD []).headD {}
        { status := 200
          body := { source := some "sec-api.io", cusip := some cusip
                    filingMeta := some (some
                      { accessionNo := filing.accessionNo, formType := filing.formType
                        filedAt := filing.filedAt, companyName := filing.companyName
                        cik := filing.cik, linkToHtml := filing.linkToHtml })
                    note := some none
                    message := some "Filing found via full-text search. Term extraction not implemented yet." }
          calls := [Call.sdkSearch] }

/-- Upstream world of `src/api/parse-filing.js` (variant 1): the internal
`/api/filing-html` fetch, the parse of its body, the OpenAI fetch, the
`JSON.parse` of the OpenAI body, and the `JSON.parse` of the fence-stripped
assistant content (`some s` renders the parsed note object). -/
structure PFWorld where
  filingFetch : FetchRes
  filingJson : JsonRes FilingJson
  openaiFetch : FetchRes
  openaiParse : Option OpenAiData
  noteParse : Option String
deriving DecidableEq

/-- Embedding of the default handler of `src/api/parse-filing.js` (variant 1,
lines 1–194). -/
def parseFilingV1Handler (qCusip qAccessionNo qCik : Option String) (env : Env)
    (w : PFWorld) : HResult :=
  if !truthyS qCusip || !truthyS qAccessionNo || !truthyS qCik then
    { status := 400
      body := { message := some "Missing required query params. Example: ?cusip=48136H7D4&accessionNo=0001213900-25-104551&cik=19617" }
      calls := [] }
  else if !truthyS env.openaiApiKey then
    { status := 500
      body := { message := some "OPENAI_API_KEY environment variable is not set in Vercel." }
      calls := [] }
  else
    match w.filingFetch with
    | FetchRes.thrown m =>
      { status := 500
        body := { message := some "Internal server error in /api/parse-filing", error := some m }
        calls := [Call.filingHtmlApi] }
    | FetchRes.resp fr =>
      match w.filingJson with
      | JsonRes.thrown m =>
        { status := 500
          body := { message := some "Internal server error in /api/parse-filing", error := some m }
          calls := [Call.filingHtmlApi] }
      | JsonRes.val fj =>
        if !fr.ok then
          { status := fr.status
            body := { message := some "Error fetching filing HTML via /api/filing-html"
                      filingJson := some fj }
            calls := [Call.filingHtmlApi] }
        else if !truthyS fj.htmlPreview then
          { status := 500
            body := { message := some "filing-html did not return htmlPreview."
                      filingJson := some fj }
            calls := [Call.filingHtmlApi] }
        else
          let htmlPreview := fj.htmlPreview.getD ""
          match w.openaiFetch with
          | FetchRes.thrown m =>
            { status := 500
              body := { message := some "Internal server error in /api/parse-filing", error := some m }
              calls := [Call.filingHtmlApi, Call.openaiChat] }
          | FetchRes.resp oar =>
            if !oar.ok then
              { status := oar.status
                body := { message := some "OpenAI API returned a non-OK status"
                          status := some oar.status, body := some oar.body }
                calls := [Call.filingHtmlApi, Call.openaiChat] }
            else
              match w.openaiParse with
              | none =>
                { status := 500
                  body := { message := some "Could not parse JSON from OpenAI response"
                            raw := some oar.body }
                  calls := [Call.filingHtmlApi, Call.openaiChat] }
              | some od =>
                if !truthyS od.content then
                  { status := 500
                    body := { message := some "OpenAI response did not contain message.content as a string" }
                    calls := [Call.filingHtmlApi, Call.openaiChat] }
                else
                  let content := od.content.getD ""
                  let _jsonText := stripFencesV1 content
                  match w.noteParse with
                  | none =>
                    { status := 500
                      body := { message := some "Assistant did not return valid JSON in message.content. Check the prompt."
                                assistantContent := some content }
                      calls := [Call.filingHtmlApi, Call.openaiChat] }
                  | some noteVal =>
                    { status := 200
                      body := { source := some "sec.gov + OpenAI", cusip := qCusip
                                accessionNo := qAccessionNo, cik := qCik
                                htmlPreviewLength := some htmlPreview.data.length
                                note := some (some noteVal) }
                      calls := [Call.filingHtmlApi, Call.openaiChat] }

/-! ## Helper lemmas -/

theorem ok_false_status_ne_200 (r : HttpResp) (h : r.ok = false) : r.status ≠ 200 := by
  intro heq
  simp [HttpResp.ok, heq] at h

theorem truthyS_none : truthyS none = false := rfl

theorem truthyS_some (s : String) : truthyS (some s) = !(s == "") := rfl

theorem analyze_message_isSome (q : Option String) (env : Env) (w : AnalyzeWorld) :
    ((analyzeCusipV1 q env w).body.message).isSome = true := by
  unfold analyzeCusipV1
  repeat' (first | rfl | split | simp)

theorem filingHtml_message_isSome (qa qc : Option String) (w : FHWorld) :
    ((filingHtmlHandler qa qc w).body.message).isSome = true := by
  unfold filingHtmlHandler
  repeat' (first | rfl | split | simp)

theorem part003_message_isSome (q : Option String) (env : Env) (w : P3World) :
    ((part003Handler q env w).body.message).isSome = true := by
  unfold part003Handler
  repeat' (first | rfl | split | simp)

/-! ## Claim theorems -/

/-- C4: for a request to the locator whose `cusip` query parameter is missing
(`none`) or the empty string, the handler returns HTTP 400 and performs no
outbound network call.  Shown for the locator variants cited by the claim
(`src/api/analyze-cusip.js` and `src/unnamed/part_003`) and additionally for
the other locator variants embedded here. -/
theorem claim_C4_empty_input_locator (env : Env) (w : AnalyzeWorld) (w3 : P3World)
    (w4a : P4AWorld) (w4b : P4BWorld) (w0 : P0World) (w2 : P2World) :
    ((analyzeCusipV1 none env w).status = 400 ∧ (analyzeCusipV1 none env w).calls = []) ∧
    ((analyzeCusipV1 (some "") env w).status = 400 ∧ (analyzeCusipV1 (some "") env w).calls = []) ∧
    ((part003Handler none env w3).status = 400 ∧ (part003Handler none env w3).calls = []) ∧
    ((part003Handler (some "") env w3).status = 400 ∧ (part003Handler (some "") env w3).calls = []) ∧
    ((part004v1Handler none env w4a).status = 400 ∧ (part004v1Handler none env w4a).calls = []) ∧
    ((part004v1Handler (some "") env w4a).status = 400 ∧ (part004v1Handler (some "") env w4a).calls = []) ∧
    ((part004v2Handler none env w4b).status = 400 ∧ (part004v2Handler none env w4b).calls = []) ∧
    ((part004v2Handler (some "") env w4b).status = 400 ∧ (part004v2Handler (some "") env w4b).calls = []) ∧
    ((part000v1Handler none w0).status = 400 ∧ (part000v1Handler none w0).calls = []) ∧
    ((part000v1Handler (some "") w0).status = 400 ∧ (part000v1Handler (some "") w0).calls = []) ∧
    ((part005Handler none w0).status = 400 ∧ (part005Handler none w0).calls = []) ∧
    ((part005Handler (some "") w0).status = 400 ∧ (part005Handler (some "") w0).calls = []) ∧
    ((part002Handler none env w2).status = 400 ∧ (part002Handler none env w2).calls = []) ∧
    ((part002Handler (some "") env w2).status = 400 ∧ (part002Handler (some "") env w2).calls = []) := by
  refine ⟨⟨rfl, rfl⟩, ⟨rfl, rfl⟩, ⟨rfl, rfl⟩, ⟨rfl, rfl⟩, ⟨rfl, rfl⟩, ⟨rfl, rfl⟩,
    ⟨rfl, rfl⟩, ⟨rfl, rfl⟩, ⟨rfl, rfl⟩, ⟨rfl, rfl⟩, ⟨rfl, rfl⟩, ⟨rfl, rfl⟩,
    ⟨rfl, rfl⟩, ⟨rfl, rfl⟩⟩

/-- C7 (amended): the handlers of `src/api/analyze-cusip.js` (variant 1),
`src/api/filing-html.js` and `src/unnamed/part_003` catch every processing error
at top level, and every response they produce — error or success, on every
path — carries a `message` field.  (The original claim fails for `part_001`,
`part_002` and `part_004` variant 1, whose 400/500 error bodies use an `error`
field and no `message` field; see the counterexample.) -/
theorem claim_C7_message_on_every_path (q qa qc : Option String) (env : Env)
    (w : AnalyzeWorld) (wf : FHWorld) (w3 : P3World) :
    ((analyzeCusipV1 q env w).body.message).isSome = true ∧
    ((filingHtmlHandler qa qc wf).body.message).isSome = true ∧
    ((part003Handler q env w3).body.message).isSome = true :=
  ⟨analyze_message_isSome q env w, filingHtml_message_isSome qa qc wf,
   part003_message_isSome q env w3⟩

/-- C7 counterexample: `src/unnamed/part_002` answers a missing-`cusip` request
with a 400 error body that has an `error` field but no `message` field,
refuting "no error response lacks the `message` field". -/
theorem claim_C7_cex_part002_400_lacks_message :
    (part002Handler none {} { getFilings := JsonRes.val none }).status = 400 ∧
    (part002Handler none {} { getFilings := JsonRes.val none }).body.message = none ∧
    (part002Handler none {} { getFilings := JsonRes.val none }).body.error =
      some "Missing cusip query parameter." := by
  refine ⟨rfl, rfl, rfl⟩

/-- C3 (amended): when the upstream search succeeds with zero matching filings,
every locator variant responds 404 (never 500); the bodies of
`src/api/analyze-cusip.js` and `src/unnamed/part_003` carry `filingsCount: 0`
and `filingMeta: null`, while the zero-result body of `src/unnamed/part_004`
variant 1 omits both fields. -/
theorem claim_C3_zero_result_404 (q : Option String) (env : Env)
    (w : AnalyzeWorld) (w3 : P3World) (w4 : P4AWorld)
    (r r3 r4 : HttpResp) (d d3 d4 : SearchData)
    (hq : truthyS q = true) (hk : truthyS env.secApiKey = true)
    (hf : w.searchFetch = FetchRes.resp r) (hok : r.ok = true)
    (hp : w.searchParse = some d) (hz : d.filings.getD [] = [])
    (hf3 : w3.ftFetch = FetchRes.resp r3) (hok3 : r3.ok = true)
    (hp3 : w3.ftJson = JsonRes.val d3) (hz3 : d3.filings.getD [] = [])
    (hf4 : w4.searchFetch = FetchRes.resp r4) (hok4 : r4.ok = true)
    (hp4 : w4.searchJson = JsonRes.val d4) (hz4 : d4.filings.getD [] = []) :
    ((analyzeCusipV1 q env w).status = 404 ∧
     (analyzeCusipV1 q env w).body.filingsCount = some 0 ∧
     (analyzeCusipV1 q env w).body.filingMeta = some none) ∧
    ((part003Handler q env w3).status = 404 ∧
     (part003Handler q env w3).body.filingsCount = some 0 ∧
     (part003Handler q env w3).body.filingMeta = some none) ∧
    ((part004v1Handler q env w4).status = 404 ∧
     (part004v1Handler q env w4).body.filingsCount = none ∧
     (part004v1Handler q env w4).body.filingMeta = none) := by
  unfold analyzeCusipV1 part003Handler part004v1Handler
  simp [hq, hk, hf, hok, hp, hz, hf3, hok3, hp3, hz3, hf4, hok4, hp4, hz4]

/-- C3 witness: the amended statement evaluated at a concrete zero-result world. -/
theorem claim_C3_zero_result_404_witness :
    ((analyzeCusipV1 (some "48136H7D4") { secApiKey := some "k" }
        { searchFetch := FetchRes.resp { status := 200, body := "x" }
          searchParse := some {}
          edgar := { indexFetch := FetchRes.thrown "n/a"
                     indexJson := JsonRes.val {}, htmlFetch := FetchRes.thrown "n/a" } }).status = 404 ∧
     (analyzeCusipV1 (some "48136H7D4") { secApiKey := some "k" }
        { searchFetch := FetchRes.resp { status := 200, body := "x" }
          searchParse := some {}
          edgar := { indexFetch := FetchRes.thrown "n/a"
                     indexJson := JsonRes.val {}, htmlFetch := FetchRes.thrown "n/a" } }).body.filingsCount = some 0 ∧
     (analyzeCusipV1 (some "48136H7D4") { secApiKey := some "k" }
        { searchFetch := FetchRes.resp { status := 200, body := "x" }
          searchParse := some {}
          edgar := { indexFetch := FetchRes.thrown "n/a"
                     indexJson := JsonRes.val {}, htmlFetch := FetchRes.thrown "n/a" } }).body.filingMeta = some none) ∧
    ((part003Handler (some "48136H7D4") { secApiKey := some "k" }
        { ftFetch := FetchRes.resp { status := 200, body := "x" }
          ftJson := JsonRes.val {}, htmlFetch := FetchRes.thrown "n/a" }).status = 404 ∧
     (part003Handler (some "48136H7D4") { secApiKey := some "k" }
        { ftFetch := FetchRes.resp { status := 200, body := "x" }
          ftJson := JsonRes.val {}, htmlFetch := FetchRes.thrown "n/a" }).body.filingsCount = some 0 ∧
     (part003Handler (some "48136H7D4") { secApiKey := some "k" }
        { ftFetch := FetchRes.resp { status := 200, body := "x" }
          ftJson := JsonRes.val {}, htmlFetch := FetchRes.thrown "n/a" }).body.filingMeta = some none) ∧
    ((part004v1Handler (some "48136H7D4") { secApiKey := some "k" }
        { searchFetch := FetchRes.resp { status := 200, body := "x" }
          searchJson := JsonRes.val {}, dataStr := "x" }).status = 404 ∧
     (part004v1Handler (some "48136H7D4") { secApiKey := some "k" }
        { searchFetch := FetchRes.resp { status := 200, body := "x" }
          searchJson := JsonRes.val {}, dataStr := "x" }).body.filingsCount = none ∧
     (part004v1Handler (some "48136H7D4") { secApiKey := some "k" }
        { searchFetch := FetchRes.resp { status := 200, body := "x" }
          searchJson := JsonRes.val {}, dataStr := "x" }).body.filingMeta = none) :=
  claim_C3_zero_result_404 (some "48136H7D4") { secApiKey := some "k" }
    { searchFetch := FetchRes.resp { status := 200, body := "x" }
      searchParse := some {}
      edgar := { indexFetch := FetchRes.thrown "n/a"
                 indexJson := JsonRes.val {}, htmlFetch := FetchRes.thrown "n/a" } }
    { ftFetch := FetchRes.resp { status := 200, body := "x" }
      ftJson := JsonRes.val {}, htmlFetch := FetchRes.thrown "n/a" }
    { searchFetch := FetchRes.resp { status := 200, body := "x" }
      searchJson := JsonRes.val {}, dataStr := "x" }
    { status := 200, body := "x" } { status := 200, body := "x" } { status := 200, body := "x" }
    {} {} {}
    (by decide) (by decide) rfl (by decide) rfl (by decide)
    rfl (by decide) rfl (by decide) rfl (by decide) rfl (by decide)

/-- C3 counterexample: a zero-result invocation of `src/unnamed/part_004`
variant 1 (a source the claim cites) produces a 404 body with no
`filingsCount` field, refuting "a body whose filingsCount field is 0". -/
theorem claim_C3_cex_part004v1_body_lacks_count :
    (part004v1Handler (some "48136H7D4") { secApiKey := some "k" }
        { searchFetch := FetchRes.resp { status := 200, body := "x" }
          searchJson := JsonRes.val {}, dataStr := "x" }).status = 404 ∧
    (part004v1Handler (some "48136H7D4") { secApiKey := some "k" }
        { searchFetch := FetchRes.resp { status := 200, body := "x" }
          searchJson := JsonRes.val {}, dataStr := "x" }).body.filingsCount ≠ some 0 ∧
    (part004v1Handler (some "48136H7D4") { secApiKey := some "k" }
        { searchFetch := FetchRes.resp { status := 200, body := "x" }
          searchJson := JsonRes.val {}, dataStr := "x" }).body.filingMeta ≠ some none := by
  refine ⟨rfl, by decide, by decide⟩

/-- C8 (amended): the handlers that check their key — `src/api/analyze-cusip.js`
(`SEC_API_KEY`) and `src/api/parse-filing.js` (`OPENAI_API_KEY`) — return the
fixed 500 response naming the missing variable before any outbound call when the
key is absent.  (The SDK-based variants `part_000` variant 1, `part_002` and
`part_005` configure the SDK from the environment at module load with no
presence check and proceed to the outbound call; see the counterexample.) -/
theorem claim_C8_missing_key_fixed_500 (q qa qc : Option String) (env : Env)
    (w : AnalyzeWorld) (wp : PFWorld)
    (hq : truthyS q = true) (hk : env.secApiKey = none)
    (hqa : truthyS qa = true) (hqc : truthyS qc = true)
    (hko : env.openaiApiKey = none) :
    ((analyzeCusipV1 q env w).status = 500 ∧
     (analyzeCusipV1 q env w).body.message =
       some "SEC_API_KEY environment variable is not set in Vercel." ∧
     (analyzeCusipV1 q env w).calls = []) ∧
    ((parseFilingV1Handler q qa qc env wp).status = 500 ∧
     (parseFilingV1Handler q qa qc env wp).body.message =
       some "OPENAI_API_KEY environment variable is not set in Vercel." ∧
     (parseFilingV1Handler q qa qc env wp).calls = []) := by
  unfold analyzeCusipV1 parseFilingV1Handler
  simp [hq, hqa, hqc, hk, hko, truthyS_none]

/-- C8 witness: the amended statement at concrete inputs with both keys absent. -/
theorem claim_C8_missing_key_fixed_500_witness :
    ((analyzeCusipV1 (some "48136H7D4") {}
        { searchFetch := FetchRes.thrown "n/a", searchParse := none
          edgar := { indexFetch := FetchRes.thrown "n/a"
                     indexJson := JsonRes.val {}, htmlFetch := FetchRes.thrown "n/a" } }).status = 500 ∧
     (analyzeCusipV1 (some "48136H7D4") {}
        { searchFetch := FetchRes.thrown "n/a", searchParse := none
          edgar := { indexFetch := FetchRes.thrown "n/a"
                     indexJson := JsonRes.val {}, htmlFetch := FetchRes.thrown "n/a" } }).body.message =
       some "SEC_API_KEY environment variable is not set in Vercel." ∧
     (analyzeCusipV1 (some "48136H7D4") {}
        { searchFetch := FetchRes.thrown "n/a", searchParse := none
          edgar := { indexFetch := FetchRes.thrown "n/a"
                     indexJson := JsonRes.val {}, htmlFetch := FetchRes.thrown "n/a" } }).calls = []) ∧
    ((parseFilingV1Handler (some "48136H7D4") (some "0001213900-25-104551") (some "19617") {}
        { filingFetch := FetchRes.thrown "n/a", filingJson := JsonRes.val {}
          openaiFetch := FetchRes.thrown "n/a", openaiParse := none, noteParse := none }).status = 500 ∧
     (parseFilingV1Handler (some "48136H7D4") (some "0001213900-25-104551") (some "19617") {}
        { filingFetch := FetchRes.thrown "n/a", filingJson := JsonRes.val {}
          openaiFetch := FetchRes.thrown "n/a", openaiParse := none, noteParse := none }).body.message =
       some "OPENAI_API_KEY environment variable is not set in Vercel." ∧
     (parseFilingV1Handler (some "48136H7D4") (some "0001213900-25-104551") (some "19617") {}
        { filingFetch := FetchRes.thrown "n/a", filingJson := JsonRes.val {}
          openaiFetch := FetchRes.thrown "n/a", openaiParse := none, noteParse := none }).calls = []) :=
  claim_C8_missing_key_fixed_500 (some "48136H7D4") (some "0001213900-25-104551") (some "19617")
    {}
    { searchFetch := FetchRes.thrown "n/a", searchParse := none
      edgar := { indexFetch := FetchRes.thrown "n/a"
                 indexJson := JsonRes.val {}, htmlFetch := FetchRes.thrown "n/a" } }
    { filingFetch := FetchRes.thrown "n/a", filingJson := JsonRes.val {}
      openaiFetch := FetchRes.thrown "n/a", openaiParse := none, noteParse := none }
    (by decide) rfl (by decide) (by decide) rfl

/-- C8 counterexample: `src/unnamed/part_000` variant 1 builds its SDK client
from `process.env.SEC_API_KEY` with no presence check, so with the key absent a
valid request still issues the outbound search call (which then fails) and the
handler answers a generic 500 that does not name the variable — refuting "the
handler returns a fixed 500 response whose message identifies the missing
variable by name, before any outbound call is attempted". -/
theorem claim_C8_cex_part000_calls_without_key :
    (part000v1Handler (some "48136H7D4")
        { search := JsonRes.thrown "401 unauthorized", filingResults := [] }).calls =
      [Call.sdkSearch] ∧
    (part000v1Handler (some "48136H7D4")
        { search := JsonRes.thrown "401 unauthorized", filingResults := [] }).status = 500 ∧
    (part000v1Handler (some "48136H7D4")
        { search := JsonRes.thrown "401 unauthorized", filingResults := [] }).body.message =
      some "Internal server error" := by
  refine ⟨rfl, rfl, rfl⟩

/-- `toUpperCase` commutes with taking the first six characters. -/
theorem upper_take6 (c : String) : jsToUpper (jsTake c 6) = jsTake (jsToUpper c) 6 := by
  simp [jsToUpper, jsTake, List.map_take]

/-- C9 (amended): in the three issuer-map variants (`part_000` variant 1,
`part_005`, `part_004` variant 2), a nonempty cusip without surrounding
whitespace whose first six characters, upper-cased, are not a key of the map
yields a 404 whose message contains the unmapped prefix, with no outbound call.
(`part_004` variant 2 trims the cusip before taking the prefix, so for inputs
with surrounding whitespace it tests a different prefix than the claim states;
see the counterexample.) -/
theorem claim_C9_unmapped_prefix_404 (c : String) (env : Env) (w0 w0' : P0World)
    (w4 : P4BWorld)
    (hne : c ≠ "") (htrim : jsTrim c = c)
    (hm : issuerLookup (jsToUpper (jsTake c 6)) = none) :
    ((part000v1Handler (some c) w0).status = 404 ∧
     (part000v1Handler (some c) w0).body.message =
       some ("Unknown issuer prefix " ++ jsToUpper (jsTake c 6) ++ ". Add to issuerMap.") ∧
     (part000v1Handler (some c) w0).calls = []) ∧
    ((part005Handler (some c) w0').status = 404 ∧
     (part005Handler (some c) w0').body.message =
       some ("Unknown issuer prefix " ++ jsToUpper (jsTake c 6) ++ ". Add to issuerMap.") ∧
     (part005Handler (some c) w0').calls = []) ∧
    ((part004v2Handler (some c) env w4).status = 404 ∧
     (part004v2Handler (some c) env w4).body.message =
       some ("Unknown issuer prefix " ++ jsToUpper (jsTake c 6) ++ ". Add to issuerMap in analyze-cusip.js.") ∧
     (part004v2Handler (some c) env w4).calls = []) ∧
    (∃ pre post,
      "Unknown issuer prefix " ++ jsToUpper (jsTake c 6) ++ ". Add to issuerMap." =
        pre ++ jsToUpper (jsTake c 6) ++ post) := by
  have hcomm := upper_take6 c
  refine ⟨?_, ?_, ?_, ⟨"Unknown issuer prefix ", ". Add to issuerMap.", rfl⟩⟩
  · unfold part000v1Handler
    simp [truthyS, hne, hm]
  · unfold part005Handler
    simp [truthyS, hne, hm]
  · unfold part004v2Handler
    simp [truthyS, hne, htrim, ← hcomm, hm]

/-- C9 witness: the amended statement at the concrete unmapped cusip `999999XX1`. -/
theorem claim_C9_unmapped_prefix_404_witness :
    ((part000v1Handler (some "999999XX1")
        { search := JsonRes.val {}, filingResults := [] }).status = 404 ∧
     (part000v1Handler (some "999999XX1")
        { search := JsonRes.val {}, filingResults := [] }).body.message =
       some ("Unknown issuer prefix " ++ jsToUpper (jsTake "999999XX1" 6) ++ ". Add to issuerMap.") ∧
     (part000v1Handler (some "999999XX1")
        { search := JsonRes.val {}, filingResults := [] }).calls = []) ∧
    ((part005Handler (some "999999XX1")
        { search := JsonRes.val {}, filingResults := [] }).status = 404 ∧
     (part005Handler (some "999999XX1")
        { search := JsonRes.val {}, filingResults := [] }).body.message =
       some ("Unknown issuer prefix " ++ jsToUpper (jsTake "999999XX1" 6) ++ ". Add to issuerMap.") ∧
     (part005Handler (some "999999XX1")
        { search := JsonRes.val {}, filingResults := [] }).calls = []) ∧
    ((part004v2Handler (some "999999XX1") {}
        { subsFetch := FetchRes.thrown "n/a", subsJson := JsonRes.val {}, candFetches := [] }).status = 404 ∧
     (part004v2Handler (some "999999XX1") {}
        { subsFetch := FetchRes.thrown "n/a", subsJson := JsonRes.val {}, candFetches := [] }).body.message =
       some ("Unknown issuer prefix " ++ jsToUpper (jsTake "999999XX1" 6) ++ ". Add to issuerMap in analyze-cusip.js.") ∧
     (part004v2Handler (some "999999XX1") {}
        { subsFetch := FetchRes.thrown "n/a", subsJson := JsonRes.val {}, candFetches := [] }).calls = []) ∧
    (∃ pre post,
      "Unknown issuer prefix " ++ jsToUpper (jsTake "999999XX1" 6) ++ ". Add to issuerMap." =
        pre ++ jsToUpper (jsTake "999999XX1" 6) ++ post) :=
  claim_C9_unmapped_prefix_404 "999999XX1" {}
    { search := JsonRes.val {}, filingResults := [] }
    { search := JsonRes.val {}, filingResults := [] }
    { subsFetch := FetchRes.thrown "n/a", subsJson := JsonRes.val {}, candFetches := [] }
    (by decide) (by decide) (by decide)

/-- C9 counterexample: `src/unnamed/part_004` variant 2 trims the cusip before
taking the 6-character prefix.  For the request cusip `" 48136H7D4"` the first
six characters upper-cased (`" 48136"`) are not a key of the map, yet the
handler does not answer 404-with-prefix: it proceeds and issues the outbound
submissions call — refuting the claim for this variant. -/
theorem claim_C9_cex_part004v2_trimmed_lookup :
    issuerLookup (jsToUpper (jsTake " 48136H7D4" 6)) = none ∧
    (part004v2Handler (some " 48136H7D4") {}
        { subsFetch := FetchRes.resp { status := 500, body := "boom" }
          subsJson := JsonRes.val {}, candFetches := [] }).calls = [Call.secSubmissions] ∧
    (part004v2Handler (some " 48136H7D4") {}
        { subsFetch := FetchRes.resp { status := 500, body := "boom" }
          subsJson := JsonRes.val {}, candFetches := [] }).status = 502 := by
  refine ⟨by decide, by decide, by decide⟩

/-- C2 (amended): the selector of `fetchEdgarHtml` (`src/api/analyze-cusip.js`)
picks, first-match-wins, (a) a `.htm`-named file (case-insensitive) whose name
contains `424b`, else (b) any `.htm`-named file, else (c) the first listed
file — so a nonempty listing always yields a document.  The selector of
`src/api/filing-html.js` instead prefers a `.htm`/`.html` name containing
`424b2`, then one containing `fwp`, then any `.htm`/`.html` name, and yields
nothing (the handler answers 404) when the listing has no HTML-named entry;
see the counterexample. -/
theorem claim_C2_selector_priority (items : List Item) :
    (items ≠ [] → (selectPrimaryAnalyze items).isSome = true) ∧
    ((∃ f ∈ items, (testHtm (nameOf f) && test424b (nameOf f)) = true) →
      selectPrimaryAnalyze items =
        items.find? (fun f => testHtm (nameOf f) && test424b (nameOf f))) ∧
    ((∀ f ∈ items, ¬((testHtm (nameOf f) && test424b (nameOf f)) = true)) →
     (∃ f ∈ items, testHtm (nameOf f) = true) →
      selectPrimaryAnalyze items = items.find? (fun f => testHtm (nameOf f))) ∧
    ((∀ f ∈ items, ¬(testHtm (nameOf f) = true)) →
      selectPrimaryAnalyze items = items.head?) ∧
    (selectDocFilingHtml items = none ↔ ∀ f ∈ items, ¬(testHtml (nameOf f) = true)) := by
  refine ⟨?_, ?_, ?_, ?_, ?_⟩
  · intro hne
    unfold selectPrimaryAnalyze
    rcases h1 : items.find? (fun f => testHtm (nameOf f) && test424b (nameOf f)) with _ | d
    · rcases h2 : items.find? (fun f => testHtm (nameOf f)) with _ | d
      · cases items with
        | nil => exact absurd rfl hne
        | cons a l => simp
      · simp
    · simp
  · intro hex
    rcases h1 : items.find? (fun f => testHtm (nameOf f) && test424b (nameOf f)) with _ | d
    · exfalso
      rw [List.find?_eq_none] at h1
      obtain ⟨f, hf, hp⟩ := hex
      exact h1 f hf hp
    · simp [selectPrimaryAnalyze, h1]
  · intro hall hex
    have h1 : items.find? (fun f => testHtm (nameOf f) && test424b (nameOf f)) = none :=
      List.find?_eq_none.mpr hall
    rcases h2 : items.find? (fun f => testHtm (nameOf f)) with _ | d
    · exfalso
      rw [List.find?_eq_none] at h2
      obtain ⟨f, hf, hp⟩ := hex
      exact h2 f hf hp
    · simp [selectPrimaryAnalyze, h1, h2]
  · intro hall
    have h1 : items.find? (fun f => testHtm (nameOf f) && test424b (nameOf f)) = none := by
      refine List.find?_eq_none.mpr ?_
      intro f hf
      simp only [Bool.and_eq_true, not_and]
      intro hh
      exact absurd hh (hall f hf)
    have h2 : items.find? (fun f => testHtm (nameOf f)) = none :=
      List.find?_eq_none.mpr hall
    simp [selectPrimaryAnalyze, h1, h2]
  · constructor
    · intro h
      have h3 : items.find? (fun it => testHtml (nameOf it)) = none := by
        rcases h1 : items.find? (fun it => testHtml (nameOf it) && test424b2 (nameOf it)) with _ | d
        · rcases h2 : items.find? (fun it => testHtml (nameOf it) && testFwp (nameOf it)) with _ | d
          · simpa [selectDocFilingHtml, h1, h2] using h
          · exfalso
            rw [selectDocFilingHtml, h1, h2] at h
            simp at h
        · exfalso
          rw [selectDocFilingHtml, h1] at h
          simp at h
      exact List.find?_eq_none.mp h3
    · intro hall
      have h1 : items.find? (fun it => testHtml (nameOf it) && test424b2 (nameOf it)) = none := by
        refine List.find?_eq_none.mpr ?_
        intro f hf
        simp only [Bool.and_eq_true, not_and]
        intro hh
        exact absurd hh (hall f hf)
      have h2 : items.find? (fun it => testHtml (nameOf it) && testFwp (nameOf it)) = none := by
        refine List.find?_eq_none.mpr ?_
        intro f hf
        simp only [Bool.and_eq_true, not_and]
        intro hh
        exact absurd hh (hall f hf)
      have h3 : items.find? (fun it => testHtml (nameOf it)) = none :=
        List.find?_eq_none.mpr hall
      simp [selectDocFilingHtml, h1, h2, h3]

/-- C2 witness: the amended statement at concrete listings. -/
theorem claim_C2_selector_priority_witness :
    (selectPrimaryAnalyze
        [{ name := some "a.txt" }, { name := some "ps424b2.htm" }, { name := some "x.htm" }]).isSome = true ∧
    selectPrimaryAnalyze
        [{ name := some "a.txt" }, { name := some "ps424b2.htm" }, { name := some "x.htm" }] =
      List.find? (fun f => testHtm (nameOf f) && test424b (nameOf f))
        [{ name := some "a.txt" }, { name := some "ps424b2.htm" }, { name := some "x.htm" }] ∧
    selectPrimaryAnalyze [{ name := some "data.xml" }, { name := some "b.txt" }] =
      List.head? [{ name := some "data.xml" }, { name := some "b.txt" }] ∧
    selectDocFilingHtml [{ name := some "data.xml" }, { name := some "b.txt" }] = none :=
  ⟨(claim_C2_selector_priority _).1 (by decide),
   (claim_C2_selector_priority _).2.1 (by decide),
   (claim_C2_selector_priority _).2.2.2.1 (by decide),
   (claim_C2_selector_priority _).2.2.2.2.mpr (by decide)⟩

/-- C2 counterexample: a listing with entries but no HTML-named entry makes
`src/api/filing-html.js` (a source the claim cites) answer 404 instead of
selecting the first listed file — refuting "a listing with entries but no HTML
entry still yields a selected document rather than a failure". -/
theorem claim_C2_cex_filingHtml_404_without_html :
    selectDocFilingHtml [{ name := some "data.xml" }, { name := some "report.txt" }] = none ∧
    (filingHtmlHandler (some "0001213900-25-104551") (some "19617")
        { indexFetch := FetchRes.resp { status := 200, body := "x" }
          indexJson := JsonRes.val
            { directoryItem := some [{ name := some "data.xml" }, { name := some "report.txt" }] }
          htmlFetch := FetchRes.thrown "n/a" }).status = 404 ∧
    (filingHtmlHandler (some "0001213900-25-104551") (some "19617")
        { indexFetch := FetchRes.resp { status := 200, body := "x" }
          indexJson := JsonRes.val
            { directoryItem := some [{ name := some "data.xml" }, { name := some "report.txt" }] }
          htmlFetch := FetchRes.thrown "n/a" }).body.message =
      some "Could not find an HTML document for this filing in index.json." := by
  refine ⟨by decide, by decide, by decide⟩

/-- C10: every 200 response of `src/api/filing-html.js` reports `htmlLength`
equal to the character length of the full fetched document, and `htmlPreview`
equal to the whole document when that length is at most 4000, and otherwise to
the first 4000 characters followed by the fixed truncation marker. -/
theorem claim_C10_preview_and_length (qa qc : Option String) (w : FHWorld)
    (h200 : (filingHtmlHandler qa qc w).status = 200) :
    ∃ hr : HttpResp, w.htmlFetch = FetchRes.resp hr ∧ hr.ok = true ∧
      (filingHtmlHandler qa qc w).body.htmlLength = some hr.body.data.length ∧
      (filingHtmlHandler qa qc w).body.htmlPreview =
        some (some (if hr.body.data.length ≤ 4000 then hr.body
                    else jsTake hr.body 4000 ++ truncMarker)) := by
  by_cases hqs : (!truthyS qa || !truthyS qc) = true
  · exfalso
    simp only [filingHtmlHandler, hqs] at h200
    simp at h200
  · rw [Bool.not_eq_true] at hqs
    rcases hf : w.indexFetch with m | r
    · exfalso
      simp only [filingHtmlHandler, hqs, hf] at h200
      simp at h200
    · by_cases hok : r.ok = true
      · rcases hj : w.indexJson with m | d
        · exfalso
          simp only [filingHtmlHandler, hqs, hf, hok, hj] at h200
          simp at h200
        · by_cases hemp : (d.directoryItem.getD []).isEmpty = true
          · exfalso
            simp only [filingHtmlHandler, hqs, hf, hok, hj, hemp] at h200
            simp at h200
          · rw [Bool.not_eq_true] at hemp
            rcases hs : selectDocFilingHtml (d.directoryItem.getD []) with _ | doc
            · exfalso
              simp only [filingHtmlHandler, hqs, hf, hok, hj, hemp, hs] at h200
              simp at h200
            · rcases hh : w.htmlFetch with m | hr
              · exfalso
                simp only [filingHtmlHandler, hqs, hf, hok, hj, hemp, hs, hh] at h200
                simp at h200
              · by_cases hhok : hr.ok = true
                · refine ⟨hr, rfl, hhok, ?_, ?_⟩
                  · simp only [filingHtmlHandler, hqs, hf, hok, hj, hemp, hs, hh, hhok]
                    simp
                  · simp only [filingHtmlHandler, hqs, hf, hok, hj, hemp, hs, hh, hhok]
                    simp
                    rcases le_or_lt hr.body.data.length 4000 with hle | hlt
                    · rw [if_neg (show ¬ 4000 < hr.body.length from Nat.not_lt.mpr hle),
                          if_pos (show hr.body.length ≤ 4000 from hle)]
                    · rw [if_pos (show 4000 < hr.body.length from hlt),
                          if_neg (show ¬ hr.body.length ≤ 4000 from Nat.not_le.mpr hlt)]
                · exfalso
                  rw [Bool.not_eq_true] at hhok
                  simp only [filingHtmlHandler, hqs, hf, hok, hj, hemp, hs, hh, hhok] at h200
                  simp at h200
                  exact ok_false_status_ne_200 hr hhok h200
      · exfalso
        rw [Bool.not_eq_true] at hok
        simp only [filingHtmlHandler, hqs, hf, hok] at h200
        simp at h200
        exact ok_false_status_ne_200 r hok h200

/-- C10 witness: the statement at a concrete world that reaches the 200 path. -/
theorem claim_C10_preview_and_length_witness :
    ∃ hr : HttpResp,
      (FHWorld.mk (FetchRes.resp { status := 200, body := "x" })
        (JsonRes.val { directoryItem := some [{ name := some "ps424b2.htm" }] })
        (FetchRes.resp { status := 200, body := "<html>hi</html>" })).htmlFetch =
          FetchRes.resp hr ∧
      hr.ok = true ∧
      (filingHtmlHandler (some "0001213900-25-104551") (some "19617")
        (FHWorld.mk (FetchRes.resp { status := 200, body := "x" })
          (JsonRes.val { directoryItem := some [{ name := some "ps424b2.htm" }] })
          (FetchRes.resp { status := 200, body := "<html>hi</html>" }))).body.htmlLength =
        some hr.body.data.length ∧
      (filingHtmlHandler (some "0001213900-25-104551") (some "19617")
        (FHWorld.mk (FetchRes.resp { status := 200, body := "x" })
          (JsonRes.val { directoryItem := some [{ name := some "ps424b2.htm" }] })
          (FetchRes.resp { status := 200, body := "<html>hi</html>" }))).body.htmlPreview =
        some (some (if hr.body.data.length ≤ 4000 then hr.body
                    else jsTake hr.body 4000 ++ truncMarker)) :=
  claim_C10_preview_and_length (some "0001213900-25-104551") (some "19617")
    (FHWorld.mk (FetchRes.resp { status := 200, body := "x" })
      (JsonRes.val { directoryItem := some [{ name := some "ps424b2.htm" }] })
      (FetchRes.resp { status := 200, body := "<html>hi</html>" }))
    (by decide)

/-- C1 (amended): the upstream calls whose status the handlers check inline —
the filing search in `src/api/analyze-cusip.js`, both EDGAR fetches in
`src/api/filing-html.js`, and the model call in `src/api/parse-filing.js`
(variant 1) — surface a non-success upstream status verbatim as the handler's
own status with the upstream body attached.  (The claim fails as stated: the
EDGAR index/document fetches inside `fetchEdgarHtml` of `analyze-cusip` swallow
a non-success response into `null`, after which the handler still answers 200;
see the counterexample.  Several unnamed variants also remap upstream failures
to a fixed 500/502 carrying the upstream status only inside the body.) -/
theorem claim_C1_upstream_status_passthrough :
    (∀ (q : Option String) (env : Env) (w : AnalyzeWorld) (r : HttpResp),
      truthyS q = true → truthyS env.secApiKey = true →
      w.searchFetch = FetchRes.resp r → r.ok = false →
      (analyzeCusipV1 q env w).status = r.status ∧
      (analyzeCusipV1 q env w).body.status = some r.status ∧
      (analyzeCusipV1 q env w).body.body = some r.body) ∧
    (∀ (qa qc : Option String) (w : FHWorld) (r : HttpResp),
      truthyS qa = true → truthyS qc = true →
      w.indexFetch = FetchRes.resp r → r.ok = false →
      (filingHtmlHandler qa qc w).status = r.status ∧
      (filingHtmlHandler qa qc w).body.status = some r.status ∧
      (filingHtmlHandler qa qc w).body.body = some r.body) ∧
    (∀ (qa qc : Option String) (w : FHWorld) (r hr : HttpResp) (d : IndexData) (doc : Item),
      truthyS qa = true → truthyS qc = true →
      w.indexFetch = FetchRes.resp r → r.ok = true →
      w.indexJson = JsonRes.val d →
      (d.directoryItem.getD []).isEmpty = false →
      selectDocFilingHtml (d.directoryItem.getD []) = some doc →
      w.htmlFetch = FetchRes.resp hr → hr.ok = false →
      (filingHtmlHandler qa qc w).status = hr.status ∧
      (filingHtmlHandler qa qc w).body.status = some hr.status ∧
      (filingHtmlHandler qa qc w).body.body = some hr.body) ∧
    (∀ (q qa qc : Option String) (env : Env) (wp : PFWorld) (fr oar : HttpResp)
       (fj : FilingJson),
      truthyS q = true → truthyS qa = true → truthyS qc = true →
      truthyS env.openaiApiKey = true →
      wp.filingFetch = FetchRes.resp fr → wp.filingJson = JsonRes.val fj →
      fr.ok = true → truthyS fj.htmlPreview = true →
      wp.openaiFetch = FetchRes.resp oar → oar.ok = false →
      (parseFilingV1Handler q qa qc env wp).status = oar.status ∧
      (parseFilingV1Handler q qa qc env wp).body.status = some oar.status ∧
      (parseFilingV1Handler q qa qc env wp).body.body = some oar.body) := by
  refine ⟨?_, ?_, ?_, ?_⟩
  · intro q env w r hq hk hf hok
    unfold analyzeCusipV1
    simp [hq, hk, hf, hok]
  · intro qa qc w r hqa hqc hf hok
    unfold filingHtmlHandler
    simp [hqa, hqc, hf, hok]
  · intro qa qc w r hr d doc hqa hqc hf hok hj hne hsel hh hhok
    unfold filingHtmlHandler
    simp [hqa, hqc, hf, hok, hj, hne, hsel, hh, hhok]
  · intro q qa qc env wp fr oar fj hq hqa hqc hk hf hj hok hprev ho hook
    unfold parseFilingV1Handler
    simp [hq, hqa, hqc, hk, hf, hj, hok, hprev, ho, hook]

/-- C1 witness: the amended statement at concrete worlds whose search, index,
document and model calls fail with status 403/503. -/
theorem claim_C1_upstream_status_passthrough_witness :
    ((analyzeCusipV1 (some "48136H7D4") { secApiKey := some "k" }
        { searchFetch := FetchRes.resp { status := 503, body := "down" }
          searchParse := none
          edgar := { indexFetch := FetchRes.thrown "n/a"
                     indexJson := JsonRes.val {}, htmlFetch := FetchRes.thrown "n/a" } }).status = 503 ∧
     (analyzeCusipV1 (some "48136H7D4") { secApiKey := some "k" }
        { searchFetch := FetchRes.resp { status := 503, body := "down" }
          searchParse := none
          edgar := { indexFetch := FetchRes.thrown "n/a"
                     indexJson := JsonRes.val {}, htmlFetch := FetchRes.thrown "n/a" } }).body.status = some 503 ∧
     (analyzeCusipV1 (some "48136H7D4") { secApiKey := some "k" }
        { searchFetch := FetchRes.resp { status := 503, body := "down" }
          searchParse := none
          edgar := { indexFetch := FetchRes.thrown "n/a"
                     indexJson := JsonRes.val {}, htmlFetch := FetchRes.thrown "n/a" } }).body.body = some "down") ∧
    ((filingHtmlHandler (some "0001213900-25-104551") (some "19617")
        { indexFetch := FetchRes.resp { status := 403, body := "Forbidden" }
          indexJson := JsonRes.val {}, htmlFetch := FetchRes.thrown "n/a" }).status = 403 ∧
     (filingHtmlHandler (some "0001213900-25-104551") (some "19617")
        { indexFetch := FetchRes.resp { status := 403, body := "Forbidden" }
          indexJson := JsonRes.val {}, htmlFetch := FetchRes.thrown "n/a" }).body.status = some 403 ∧
     (filingHtmlHandler (some "0001213900-25-104551") (some "19617")
        { indexFetch := FetchRes.resp { status := 403, body := "Forbidden" }
          indexJson := JsonRes.val {}, htmlFetch := FetchRes.thrown "n/a" }).body.body = some "Forbidden") ∧
    ((filingHtmlHandler (some "0001213900-25-104551") (some "19617")
        { indexFetch := FetchRes.resp { status := 200, body := "x" }
          indexJson := JsonRes.val { directoryItem := some [{ name := some "ps424b2.htm" }] }
          htmlFetch := FetchRes.resp { status := 403, body := "Denied" } }).status = 403 ∧
     (filingHtmlHandler (some "0001213900-25-104551") (some "19617")
        { indexFetch := FetchRes.resp { status := 200, body := "x" }
          indexJson := JsonRes.val { directoryItem := some [{ name := some "ps424b2.htm" }] }
          htmlFetch := FetchRes.resp { status := 403, body := "Denied" } }).body.status = some 403 ∧
     (filingHtmlHandler (some "0001213900-25-104551") (some "19617")
        { indexFetch := FetchRes.resp { status := 200, body := "x" }
          indexJson := JsonRes.val { directoryItem := some [{ name := some "ps424b2.htm" }] }
          htmlFetch := FetchRes.resp { status := 403, body := "Denied" } }).body.body = some "Denied") ∧
    ((parseFilingV1Handler (some "48136H7D4") (some "0001213900-25-104551") (some "19617")
        { openaiApiKey := some "k" }
        { filingFetch := FetchRes.resp { status := 200, body := "x" }
          filingJson := JsonRes.val { htmlPreview := some "<html>" }
          openaiFetch := FetchRes.resp { status := 429, body := "rate limited" }
          openaiParse := none, noteParse := none }).status = 429 ∧
     (parseFilingV1Handler (some "48136H7D4") (some "0001213900-25-104551") (some "19617")
        { openaiApiKey := some "k" }
        { filingFetch := FetchRes.resp { status := 200, body := "x" }
          filingJson := JsonRes.val { htmlPreview := some "<html>" }
          openaiFetch := FetchRes.resp { status := 429, body := "rate limited" }
          openaiParse := none, noteParse := none }).body.status = some 429 ∧
     (parseFilingV1Handler (some "48136H7D4") (some "0001213900-25-104551") (some "19617")
        { openaiApiKey := some "k" }
        { filingFetch := FetchRes.resp { status := 200, body := "x" }
          filingJson := JsonRes.val { htmlPreview := some "<html>" }
          openaiFetch := FetchRes.resp { status := 429, body := "rate limited" }
          openaiParse := none, noteParse := none }).body.body = some "rate limited") :=
  ⟨claim_C1_upstream_status_passthrough.1 (some "48136H7D4") { secApiKey := some "k" }
      { searchFetch := FetchRes.resp { status := 503, body := "down" }
        searchParse := none
        edgar := { indexFetch := FetchRes.thrown "n/a"
                   indexJson := JsonRes.val {}, htmlFetch := FetchRes.thrown "n/a" } }
      { status := 503, body := "down" } (by decide) (by decide) rfl (by decide),
   claim_C1_upstream_status_passthrough.2.1 (some "0001213900-25-104551") (some "19617")
      { indexFetch := FetchRes.resp { status := 403, body := "Forbidden" }
        indexJson := JsonRes.val {}, htmlFetch := FetchRes.thrown "n/a" }
      { status := 403, body := "Forbidden" } (by decide) (by decide) rfl (by decide),
   claim_C1_upstream_status_passthrough.2.2.1 (some "0001213900-25-104551") (some "19617")
      { indexFetch := FetchRes.resp { status := 200, body := "x" }
        indexJson := JsonRes.val { directoryItem := some [{ name := some "ps424b2.htm" }] }
        htmlFetch := FetchRes.resp { status := 403, body := "Denied" } }
      { status := 200, body := "x" } { status := 403, body := "Denied" }
      { directoryItem := some [{ name := some "ps424b2.htm" }] } { name := some "ps424b2.htm" }
      (by decide) (by decide) rfl (by decide) rfl (by decide) (by decide) rfl (by decide),
   claim_C1_upstream_status_passthrough.2.2.2 (some "48136H7D4") (some "0001213900-25-104551")
      (some "19617") { openaiApiKey := some "k" }
      { filingFetch := FetchRes.resp { status := 200, body := "x" }
        filingJson := JsonRes.val { htmlPreview := some "<html>" }
        openaiFetch := FetchRes.resp { status := 429, body := "rate limited" }
        openaiParse := none, noteParse := none }
      { status := 200, body := "x" } { status := 429, body := "rate limited" }
      { htmlPreview := some "<html>" }
      (by decide) (by decide) (by decide) (by decide) rfl rfl (by decide) (by decide)
      rfl (by decide)⟩

/-- C1 counterexample: in `src/api/analyze-cusip.js` a 403 from the EDGAR
`index.json` fetch is swallowed by `fetchEdgarHtml` (it returns `null`) and the
handler answers 200 — refuting "no code path converts an upstream failure into
a 200 response" and the verbatim-status requirement for the EDGAR calls. -/
theorem claim_C1_cex_edgar_failure_becomes_200 :
    (HttpResp.ok { status := 403, body := "Forbidden" }) = false ∧
    (analyzeCusipV1 (some "48136H7D4") { secApiKey := some "k" }
        { searchFetch := FetchRes.resp { status := 200, body := "x" }
          searchParse := some
            { filings := some [{ accessionNo := some "0001213900-25-104551", cik := some "19617" }] }
          edgar := { indexFetch := FetchRes.resp { status := 403, body := "Forbidden" }
                     indexJson := JsonRes.val {}, htmlFetch := FetchRes.thrown "n/a" } }).calls =
      [Call.secSearch, Call.edgarIndex] ∧
    (analyzeCusipV1 (some "48136H7D4") { secApiKey := some "k" }
        { searchFetch := FetchRes.resp { status := 200, body := "x" }
          searchParse := some
            { filings := some [{ accessionNo := some "0001213900-25-104551", cik := some "19617" }] }
          edgar := { indexFetch := FetchRes.resp { status := 403, body := "Forbidden" }
                     indexJson := JsonRes.val {}, htmlFetch := FetchRes.thrown "n/a" } }).status = 200 ∧
    (analyzeCusipV1 (some "48136H7D4") { secApiKey := some "k" }
        { searchFetch := FetchRes.resp { status := 200, body := "x" }
          searchParse := some
            { filings := some [{ accessionNo := some "0001213900-25-104551", cik := some "19617" }] }
          edgar := { indexFetch := FetchRes.resp { status := 403, body := "Forbidden" }
                     indexJson := JsonRes.val {}, htmlFetch := FetchRes.thrown "n/a" } }).body.htmlUrl =
      some none := by
  refine ⟨by decide, by decide, by decide, by decide⟩

/-! ## Decimal-normalization lemmas for C5 -/

theorem digit_cases {c : Char} (h : isDigitCh c = true) :
    c = '0' ∨ c = '1' ∨ c = '2' ∨ c = '3' ∨ c = '4' ∨
    c = '5' ∨ c = '6' ∨ c = '7' ∨ c = '8' ∨ c = '9' := by
  have h' := h
  simp [isDigitCh] at h'
  tauto

theorem digitChar_digitVal {c : Char} (h : isDigitCh c = true) :
    digitChar (digitVal c) = c := by
  rcases digit_cases h with rfl | rfl | rfl | rfl | rfl | rfl | rfl | rfl | rfl | rfl <;> rfl

theorem digitVal_lt_ten {c : Char} (h : isDigitCh c = true) : digitVal c < 10 := by
  rcases digit_cases h with rfl | rfl | rfl | rfl | rfl | rfl | rfl | rfl | rfl | rfl <;> decide

theorem digitVal_ne_zero {c : Char} (h : isDigitCh c = true) (h0 : c ≠ '0') :
    digitVal c ≠ 0 := by
  rcases digit_cases h with rfl | rfl | rfl | rfl | rfl | rfl | rfl | rfl | rfl | rfl
  · exact absurd rfl h0
  all_goals decide

theorem digit_not_ws {c : Char} (h : isDigitCh c = true) : isWs c = false := by
  rcases digit_cases h with rfl | rfl | rfl | rfl | rfl | rfl | rfl | rfl | rfl | rfl <;> decide

theorem takeWhile_all {p : Char → Bool} {l : List Char} (h : ∀ c ∈ l, p c = true) :
    l.takeWhile p = l := by
  induction l with
  | nil => rfl
  | cons a t ih =>
    rw [List.takeWhile_cons, if_pos (h a (List.mem_cons_self a t)),
        ih (fun c hc => h c (List.mem_cons_of_mem a hc))]

theorem dropWhile_cons_false (p : Char → Bool) {l : List Char} {a : Char} {t : List Char}
    (h : l.dropWhile p = a :: t) : p a = false := by
  induction l with
  | nil => simp at h
  | cons b u ih =>
    rw [List.dropWhile_cons] at h
    by_cases hpb : p b = true
    · rw [if_pos hpb] at h
      exact ih h
    · rw [if_neg hpb] at h
      injection h with h1 _
      subst h1
      rwa [Bool.not_eq_true] at hpb

theorem ofDigits_replicate_zero (b : Nat) (k : Nat) :
    Nat.ofDigits b (List.replicate k 0) = 0 := by
  induction k with
  | zero => simp
  | succ n ih => rw [List.replicate_succ, Nat.ofDigits_cons, ih]; simp

theorem renderAux_eq_digits :
    ∀ (fuel n : Nat), n ≤ fuel →
      renderAux fuel n = ((Nat.digits 10 n).reverse.map digitChar) := by
  intro fuel
  induction fuel with
  | zero =>
    intro n h
    have h0 : n = 0 := Nat.le_zero.mp h
    subst h0
    simp [renderAux]
  | succ f ih =>
    intro n h
    by_cases h0 : n = 0
    · subst h0
      simp [renderAux]
    · rw [renderAux, if_neg h0]
      have hdiv : n / 10 ≤ f := by
        have h1 : n / 10 < n := Nat.div_lt_self (Nat.pos_of_ne_zero h0) (by norm_num)
        omega
      rw [ih (n / 10) hdiv,
          Nat.digits_def' (by norm_num : (1 : ℕ) < 10) (Nat.pos_of_ne_zero h0)]
      simp [List.reverse_cons]

theorem digits_charsVal (t : List Char) (hd : ∀ c ∈ t, isDigitCh c = true)
    (a : Char) (t' : List Char) (hcons : t = a :: t') (h0 : a ≠ '0') :
    Nat.digits 10 (charsVal t) = (t.map digitVal).reverse := by
  rw [charsVal]
  apply Nat.digits_ofDigits 10 (by norm_num)
  · intro x hx
    rw [List.mem_reverse] at hx
    obtain ⟨c, hc, rfl⟩ := List.mem_map.mp hx
    exact digitVal_lt_ten (hd c hc)
  · intro hne
    have hh : (t.map digitVal).head? = some (digitVal a) := by
      rw [hcons]
      simp
    have h1 : ((t.map digitVal).reverse).getLast? = some (digitVal a) := by
      rw [List.getLast?_reverse]
      exact hh
    rw [List.getLast?_eq_getLast _ hne] at h1
    rw [Option.some.inj h1]
    exact digitVal_ne_zero (hd a (by rw [hcons]; exact List.mem_cons_self a t')) h0

theorem charsVal_dropZeros (l : List Char) (hz : ∀ c ∈ l.takeWhile (fun c => c == '0'), c = '0') :
    charsVal l = charsVal (l.dropWhile (fun c => c == '0')) := by
  conv_lhs => rw [← List.takeWhile_append_dropWhile (fun c => c == '0') l]
  rw [charsVal, charsVal, List.map_append, List.reverse_append, Nat.ofDigits_append]
  have hzrep : (l.takeWhile (fun c => c == '0')).map digitVal =
      List.replicate (l.takeWhile (fun c => c == '0')).length 0 := by
    rw [List.eq_replicate_iff]
    refine ⟨by simp, ?_⟩
    intro b hb
    obtain ⟨c, hc, rfl⟩ := List.mem_map.mp hb
    rw [hz c hc]
    rfl
  rw [hzrep, List.reverse_replicate, ofDigits_replicate_zero]
  simp

/-- Core of C5: on a decimal-digit string with at least one nonzero digit,
`String(parseInt(s, 10))` equals the string with its leading zeros stripped. -/
theorem parseInt_strips_zeros (s : String)
    (hd : ∀ c ∈ s.data, isDigitCh c = true) (hnz : ∃ c ∈ s.data, c ≠ '0') :
    jsStringOfParseInt s = dropLeadingZeros s := by
  obtain ⟨c0, hc0, hc0ne⟩ := hnz
  have hne : s.data ≠ [] := List.ne_nil_of_mem hc0
  have hws : s.data.dropWhile isWs = s.data := by
    cases hcons : s.data with
    | nil => rfl
    | cons a t =>
      have hda : isDigitCh a = true := hd a (by rw [hcons]; exact List.mem_cons_self a t)
      rw [List.dropWhile_cons, digit_not_ws hda]
      simp
  have htw : s.data.takeWhile isDigitCh = s.data := takeWhile_all hd
  have hparse : jsParseIntNat s = some (charsVal s.data) := by
    unfold jsParseIntNat
    rw [hws, htw]
    have hie : s.data.isEmpty = false := by
      rw [List.isEmpty_eq_false]
      exact hne
    simp [hie]
  have hzall : ∀ c ∈ s.data.takeWhile (fun c => c == '0'), c = '0' := by
    intro c hc
    simpa using List.mem_takeWhile_imp hc
  have htne : s.data.dropWhile (fun c => c == '0') ≠ [] := by
    intro h
    have hc0' : c0 ∈ s.data.takeWhile (fun c => c == '0') := by
      have := List.takeWhile_append_dropWhile (fun c => c == '0') s.data
      rw [h, List.append_nil] at this
      rw [← this] at hc0
      exact hc0
    exact hc0ne (hzall c0 hc0')
  obtain ⟨a, t', hcons⟩ := List.exists_cons_of_ne_nil htne
  have ha0 : a ≠ '0' := by
    have := dropWhile_cons_false (fun c => c == '0') hcons
    simpa using this
  have htd : ∀ c ∈ s.data.dropWhile (fun c => c == '0'), isDigitCh c = true := by
    intro c hc
    apply hd
    have := List.takeWhile_append_dropWhile (fun c => c == '0') s.data
    rw [← this]
    exact List.mem_append.mpr (Or.inr hc)
  have hval : charsVal s.data = charsVal (s.data.dropWhile (fun c => c == '0')) :=
    charsVal_dropZeros s.data hzall
  have hdig : Nat.digits 10 (charsVal (s.data.dropWhile (fun c => c == '0'))) =
      ((s.data.dropWhile (fun c => c == '0')).map digitVal).reverse :=
    digits_charsVal _ htd a t' hcons ha0
  have hn0 : charsVal (s.data.dropWhile (fun c => c == '0')) ≠ 0 := by
    intro h
    rw [h, Nat.digits_zero, hcons] at hdig
    simp at hdig
  unfold jsStringOfParseInt
  rw [hparse]
  show natToStr (charsVal s.data) = dropLeadingZeros s
  unfold natToStr
  rw [if_neg (by rw [hval]; exact hn0)]
  rw [hval, renderAux_eq_digits _ _ le_rfl, hdig, List.reverse_reverse, List.map_map]
  have hid : (s.data.dropWhile (fun c => c == '0')).map (digitChar ∘ digitVal) =
      s.data.dropWhile (fun c => c == '0') := by
    refine (List.map_congr_left ?_).trans (List.map_id _)
    intro c hc
    exact digitChar_digitVal (htd c hc)
  rw [hid]
  rfl

/-- C5: for a CIK that is a decimal-digit string with a nonzero digit (the shape
of real CIKs), the normalization used by `fetchEdgarHtml`, `filing-html` and
`parse-filing` — `String(parseInt(cik, 10))` — strips the leading zeros exactly
as the spec states, the accession number loses every dash, and the derived
storage path is the deterministic composition of the two normalized tokens
(`edgarBasePath` is a pure function, so equal inputs always derive equal
paths). -/
theorem claim_C5_path_normalization (cik accessionNo : String)
    (hd : ∀ c ∈ cik.data, isDigitCh c = true) (hnz : ∃ c ∈ cik.data, c ≠ '0') :
    jsStringOfParseInt cik = dropLeadingZeros cik ∧
    (stripDashes accessionNo).data = accessionNo.data.filter (fun c => !(c == '-')) ∧
    edgarBasePath cik accessionNo =
      "https://www.sec.gov/Archives/edgar/data/" ++ dropLeadingZeros cik ++ "/" ++
        stripDashes accessionNo := by
  have h := parseInt_strips_zeros cik hd hnz
  refine ⟨h, rfl, ?_⟩
  rw [edgarBasePath, h]

/-- C5 witness: the statement at the round-trip CIK `0000019617` and accession
number `0001213900-25-104551`. -/
theorem claim_C5_path_normalization_witness :
    jsStringOfParseInt "0000019617" = dropLeadingZeros "0000019617" ∧
    (stripDashes "0001213900-25-104551").data =
      "0001213900-25-104551".data.filter (fun c => !(c == '-')) ∧
    edgarBasePath "0000019617" "0001213900-25-104551" =
      "https://www.sec.gov/Archives/edgar/data/" ++ dropLeadingZeros "0000019617" ++ "/" ++
        stripDashes "0001213900-25-104551" :=
  claim_C5_path_normalization "0000019617" "0001213900-25-104551" (by decide) (by decide)

/-! ## Fence-stripping lemmas for C6 -/

theorem startsWithL_append_self (p r : List Char) : startsWithL p (p ++ r) = true := by
  induction p with
  | nil => rfl
  | cons a t ih => simp [startsWithL, ih]

theorem startsWithL_le_length {p l : List Char} (h : startsWithL p l = true) :
    p.length ≤ l.length := by
  induction p generalizing l with
  | nil => simp
  | cons a t ih =>
    cases l with
    | nil => simp [startsWithL] at h
    | cons b u =>
      simp only [startsWithL, Bool.and_eq_true] at h
      have := ih h.2
      simp only [List.length_cons]
      omega

theorem dropWhile_eq_self_of_head (p : Char → Bool) (l : List Char)
    (h : ∀ a, l.head? = some a → p a = false) : l.dropWhile p = l := by
  cases l with
  | nil => rfl
  | cons a t =>
    rw [List.dropWhile_cons, h a rfl]
    simp

theorem trimChars_eq_self (l : List Char)
    (hh : ∀ a, l.head? = some a → isWs a = false)
    (hl : ∀ a, l.getLast? = some a → isWs a = false) : trimChars l = l := by
  unfold trimChars
  rw [dropWhile_eq_self_of_head _ _ hh,
      dropWhile_eq_self_of_head _ _ (fun a ha => hl a (by rwa [List.head?_reverse] at ha)),
      List.reverse_reverse]

theorem trimChars_append_nl (l : List Char) (hne : l ≠ [])
    (hh : ∀ a, l.head? = some a → isWs a = false)
    (hl : ∀ a, l.getLast? = some a → isWs a = false) :
    trimChars (l ++ ['\n']) = l := by
  obtain ⟨a, t, rfl⟩ := List.exists_cons_of_ne_nil hne
  unfold trimChars
  have h1 : ((a :: t) ++ ['\n']).dropWhile isWs = (a :: t) ++ ['\n'] := by
    rw [List.cons_append, List.dropWhile_cons, hh a rfl]
    simp
  rw [h1, List.reverse_append]
  rw [show (['\n'] : List Char).reverse ++ (a :: t).reverse = '\n' :: (a :: t).reverse from rfl]
  rw [List.dropWhile_cons, (by decide : isWs '\n' = true), if_pos rfl]
  rw [dropWhile_eq_self_of_head _ _ (fun b hb => hl b (by rwa [List.head?_reverse] at hb)),
      List.reverse_reverse]

theorem endsWithL_append_fence (y : List Char) :
    endsWithL fenceChars (y ++ fenceChars) = true := by
  unfold endsWithL
  rw [List.reverse_append]
  exact startsWithL_append_self _ _

theorem stripTrail_append_fence (y : List Char) : stripTrailV1 (y ++ fenceChars) = y := by
  unfold stripTrailV1
  rw [endsWithL_append_fence, if_pos rfl]
  have hlen : (y ++ fenceChars).length - 3 = y.length := by
    rw [List.length_append, (by decide : fenceChars.length = 3)]
    omega
  rw [hlen]
  exact List.take_left y fenceChars

theorem stripLeadV1_bare (rest : List Char) :
    stripLeadV1 ('`' :: '`' :: '`' :: '\n' :: rest) = rest.dropWhile isWs := by
  have h1 : ((('\n' :: rest).take 4).map Char.toLower == "json".data) = false := by
    rw [show ('\n' :: rest).take 4 = '\n' :: rest.take 3 from rfl, List.map_cons]
    rw [show ((Char.toLower '\n' :: (rest.take 3).map Char.toLower : List Char) ==
        "json".data) =
          ((Char.toLower '\n' == 'j') && ((rest.take 3).map Char.toLower ==
            's' :: 'o' :: 'n' :: [])) from rfl]
    rw [(by decide : (Char.toLower '\n' == 'j') = false)]
    simp
  show ((if ((('\n' :: rest).take 4).map Char.toLower == "json".data) = true then
      ('\n' :: rest).drop 4 else '\n' :: rest).dropWhile isWs) = rest.dropWhile isWs
  rw [h1, if_neg Bool.false_ne_true]
  rw [List.dropWhile_cons, (by decide : isWs '\n' = true), if_pos rfl]

theorem stripLeadV1_json (rest : List Char) :
    stripLeadV1 ('`' :: '`' :: '`' :: 'j' :: 's' :: 'o' :: 'n' :: '\n' :: rest) =
      rest.dropWhile isWs := by
  have h1 : ((('j' :: 's' :: 'o' :: 'n' :: '\n' :: rest).take 4).map Char.toLower ==
      "json".data) = true := by
    rw [show ('j' :: 's' :: 'o' :: 'n' :: '\n' :: rest).take 4 = ['j', 's', 'o', 'n'] from rfl]
    decide
  show ((if ((('j' :: 's' :: 'o' :: 'n' :: '\n' :: rest).take 4).map Char.toLower ==
      "json".data) = true then ('j' :: 's' :: 'o' :: 'n' :: '\n' :: rest).drop 4
    else 'j' :: 's' :: 'o' :: 'n' :: '\n' :: rest).dropWhile isWs) = rest.dropWhile isWs
  rw [h1, if_pos rfl]
  rw [show ('j' :: 's' :: 'o' :: 'n' :: '\n' :: rest).drop 4 = '\n' :: rest from rfl]
  rw [List.dropWhile_cons, (by decide : isWs '\n' = true), if_pos rfl]

theorem fenceAt_false_of_big (l : List Char) (j : Nat) (h : l.length < j + 3) :
    fenceAt l j = false := by
  cases hb : fenceAt l j
  · rfl
  · exfalso
    unfold fenceAt at hb
    have hle := startsWithL_le_length hb
    rw [List.length_drop, (by decide : fenceChars.length = 3)] at hle
    omega

theorem lastFenceAux_spec (l : List Char) :
    ∀ (m k : Nat), k ≤ m → fenceAt l k = true →
      (∀ j, k < j → j ≤ m → fenceAt l j = false) →
      lastFenceAux l m = some k := by
  intro m
  induction m with
  | zero =>
    intro k hk hfk _
    have hk0 : k = 0 := Nat.le_zero.mp hk
    subst hk0
    simp [lastFenceAux, hfk]
  | succ m ih =>
    intro k hk hfk hup
    rcases Nat.lt_or_ge k (m + 1) with hlt | hge
    · have hm : fenceAt l (m + 1) = false := hup (m + 1) hlt le_rfl
      rw [lastFenceAux, hm, if_neg Bool.false_ne_true]
      exact ih k (by omega) hfk (fun j h1 h2 => hup j h1 (by omega))
    · have hkm : k = m + 1 := by omega
      subst hkm
      rw [lastFenceAux, hfk, if_pos rfl]

theorem lastFenceIdx_append (y : List Char) :
    lastFenceIdx (y ++ fenceChars) = some y.length := by
  unfold lastFenceIdx
  apply lastFenceAux_spec
  · rw [List.length_append, (by decide : fenceChars.length = 3)]
    omega
  · unfold fenceAt
    rw [List.drop_left]
    have := startsWithL_append_self fenceChars []
    rwa [List.append_nil] at this
  · intro j h1 h2
    apply fenceAt_false_of_big
    rw [List.length_append, (by decide : fenceChars.length = 3)]
    omega

/-- C6: a model answer that is a JSON object (it starts with a brace and ends
with a brace) wrapped in leading/trailing triple-backtick fences, with a bare
fence or a `json` language tag, is stripped back to exactly the unfenced object
by both fence-stripping implementations (`stripFencesV1` of variant 1 and
`extractJsonFromText` of variant 3); an unfenced object passes through both
unchanged.  Since the stripped text equals the unfenced text, structural JSON
parsing of the stripped text succeeds exactly when parsing the unfenced text
does and yields the same object. -/
theorem claim_C6_fence_stripping (tag body : String)
    (htag : tag = "" ∨ tag = "json")
    (hhead : body.data.head? = some '{')
    (hlast : body.data.getLast? = some '}') :
    stripFencesV1 (mkFenced tag body) = body ∧
    extractJsonFromText (mkFenced tag body) = body ∧
    stripFencesV1 body = body ∧
    extractJsonFromText body = body := by
  have hbne : body.data ≠ [] := by
    intro h
    rw [h] at hhead
    simp at hhead
  obtain ⟨bh, bt, hbcons⟩ := List.exists_cons_of_ne_nil hbne
  have hbh : bh = '{' := by
    rw [hbcons] at hhead
    simpa using hhead
  subst hbh
  have hhns : ∀ a, body.data.head? = some a → isWs a = false := by
    intro a ha
    rw [hhead] at ha
    cases ha
    decide
  have hlns : ∀ a, body.data.getLast? = some a → isWs a = false := by
    intro a ha
    rw [hlast] at ha
    cases ha
    decide
  have htrimb : trimChars body.data = body.data := trimChars_eq_self _ hhns hlns
  have hjt_body : jsTrim body = body := by
    show (⟨trimChars body.data⟩ : String) = body
    rw [htrimb]
  have hnostart : startsWithL fenceChars body.data = false := by
    rw [hbcons, show fenceChars = '`' :: '`' :: '`' :: [] from rfl]
    simp [startsWithL]
  have htrimnl : trimChars (body.data ++ ['\n']) = body.data :=
    trimChars_append_nl _ hbne hhns hlns
  have hjtnl : jsTrim ⟨body.data ++ ['\n']⟩ = body := by
    show (⟨trimChars (body.data ++ ['\n'])⟩ : String) = body
    rw [htrimnl]
  have hv1u : stripFencesV1 body = body := by
    show (if startsWithL fenceChars (jsTrim body).data then
        jsTrim ⟨stripTrailV1 (stripLeadV1 (jsTrim body).data)⟩ else jsTrim body) = body
    rw [hjt_body, hnostart, if_neg Bool.false_ne_true]
  have hv3u : extractJsonFromText body = body := by
    show (if startsWithL fenceChars (jsTrim body).data then
        jsTrim ⟨extractCore (jsTrim body).data⟩ else jsTrim ⟨(jsTrim body).data⟩) = body
    rw [hjt_body, hnostart, if_neg Bool.false_ne_true]
    show (⟨trimChars body.data⟩ : String) = body
    rw [htrimb]
  have hfi : lastFenceIdx (body.data ++ '\n' :: fenceChars) =
      some (body.data ++ ['\n']).length := by
    have := lastFenceIdx_append (body.data ++ ['\n'])
    rwa [List.append_assoc, List.singleton_append] at this
  have htake : (body.data ++ '\n' :: fenceChars).take ((body.data ++ ['\n']).length) =
      body.data ++ ['\n'] := by
    have := @List.take_left' Char (body.data ++ ['\n']) fenceChars _ rfl
    rwa [List.append_assoc, List.singleton_append] at this
  have hdropb : (body.data ++ '\n' :: fenceChars).dropWhile isWs =
      body.data ++ '\n' :: fenceChars := by
    rw [hbcons, List.cons_append, List.dropWhile_cons, (by decide : isWs '{' = false)]
    simp
  rcases htag with rfl | rfl
  · -- bare fence
    have hdata : (mkFenced "" body).data =
        '`' :: '`' :: '`' :: '\n' :: (body.data ++ '\n' :: fenceChars) := rfl
    have hdata2 : (mkFenced "" body).data =
        ('`' :: '`' :: '`' :: '\n' :: (body.data ++ ['\n'])) ++ fenceChars := by
      rw [hdata]
      simp [List.append_assoc]
    have hfh : ∀ a, (mkFenced "" body).data.head? = some a → isWs a = false := by
      intro a ha
      rw [hdata] at ha
      simp only [List.head?_cons, Option.some.injEq] at ha
      rw [← ha]
      decide
    have hfl : ∀ a, (mkFenced "" body).data.getLast? = some a → isWs a = false := by
      intro a ha
      rw [hdata2, List.getLast?_append, (by decide : fenceChars.getLast? = some '`')] at ha
      have hae := Option.some.inj ha
      rw [← hae]
      decide
    have htrimf : jsTrim (mkFenced "" body) = mkFenced "" body := by
      show (⟨trimChars (mkFenced "" body).data⟩ : String) = mkFenced "" body
      rw [trimChars_eq_self _ hfh hfl]
    have hstart : startsWithL fenceChars (mkFenced "" body).data = true := by
      rw [hdata, show fenceChars = '`' :: '`' :: '`' :: [] from rfl]
      simp [startsWithL]
    have hv1 : stripFencesV1 (mkFenced "" body) = body := by
      show (if startsWithL fenceChars (jsTrim (mkFenced "" body)).data then
          jsTrim ⟨stripTrailV1 (stripLeadV1 (jsTrim (mkFenced "" body)).data)⟩
        else jsTrim (mkFenced "" body)) = body
      rw [htrimf, hstart, if_pos rfl, hdata, stripLeadV1_bare, hdropb]
      rw [show body.data ++ '\n' :: fenceChars = (body.data ++ ['\n']) ++ fenceChars by
        simp [List.append_assoc]]
      rw [stripTrail_append_fence]
      exact hjtnl
    have hnl : findNl ('`' :: '`' :: '`' :: '\n' :: (body.data ++ '\n' :: fenceChars)) =
        some 3 := by
      simp [findNl, (by decide : (('`' : Char) == '\n') = false)]
    have hcore : extractCore ('`' :: '`' :: '`' :: '\n' :: (body.data ++ '\n' :: fenceChars)) =
        body.data ++ ['\n'] := by
      have h1 : ('`' :: '`' :: '`' :: '\n' :: (body.data ++ '\n' :: fenceChars)).drop (3 + 1) =
          body.data ++ '\n' :: fenceChars := rfl
      simp only [extractCore, hnl, h1, hfi, htake]
    have hv3 : extractJsonFromText (mkFenced "" body) = body := by
      show (if startsWithL fenceChars (jsTrim (mkFenced "" body)).data then
          jsTrim ⟨extractCore (jsTrim (mkFenced "" body)).data⟩
        else jsTrim ⟨(jsTrim (mkFenced "" body)).data⟩) = body
      rw [htrimf, hstart, if_pos rfl, hdata, hcore]
      exact hjtnl
    exact ⟨hv1, hv3, hv1u, hv3u⟩
  · -- json tag
    have hdata : (mkFenced "json" body).data =
        '`' :: '`' :: '`' :: 'j' :: 's' :: 'o' :: 'n' :: '\n' ::
          (body.data ++ '\n' :: fenceChars) := rfl
    have hdata2 : (mkFenced "json" body).data =
        ('`' :: '`' :: '`' :: 'j' :: 's' :: 'o' :: 'n' :: '\n' :: (body.data ++ ['\n'])) ++
          fenceChars := by
      rw [hdata]
      simp [List.append_assoc]
    have hfh : ∀ a, (mkFenced "json" body).data.head? = some a → isWs a = false := by
      intro a ha
      rw [hdata] at ha
      simp only [List.head?_cons, Option.some.injEq] at ha
      rw [← ha]
      decide
    have hfl : ∀ a, (mkFenced "json" body).data.getLast? = some a → isWs a = false := by
      intro a ha
      rw [hdata2, List.getLast?_append, (by decide : fenceChars.getLast? = some '`')] at ha
      have hae := Option.some.inj ha
      rw [← hae]
      decide
    have htrimf : jsTrim (mkFenced "json" body) = mkFenced "json" body := by
      show (⟨trimChars (mkFenced "json" body).data⟩ : String) = mkFenced "json" body
      rw [trimChars_eq_self _ hfh hfl]
    have hstart : startsWithL fenceChars (mkFenced "json" body).data = true := by
      rw [hdata, show fenceChars = '`' :: '`' :: '`' :: [] from rfl]
      simp [startsWithL]
    have hv1 : stripFencesV1 (mkFenced "json" body) = body := by
      show (if startsWithL fenceChars (jsTrim (mkFenced "json" body)).data then
          jsTrim ⟨stripTrailV1 (stripLeadV1 (jsTrim (mkFenced "json" body)).data)⟩
        else jsTrim (mkFenced "json" body)) = body
      rw [htrimf, hstart, if_pos rfl, hdata, stripLeadV1_json, hdropb]
      rw [show body.data ++ '\n' :: fenceChars = (body.data ++ ['\n']) ++ fenceChars by
        simp [List.append_assoc]]
      rw [stripTrail_append_fence]
      exact hjtnl
    have hnl : findNl ('`' :: '`' :: '`' :: 'j' :: 's' :: 'o' :: 'n' :: '\n' ::
        (body.data ++ '\n' :: fenceChars)) = some 7 := by
      simp [findNl, (by decide : (('`' : Char) == '\n') = false),
        (by decide : (('j' : Char) == '\n') = false),
        (by decide : (('s' : Char) == '\n') = false),
        (by decide : (('o' : Char) == '\n') = false),
        (by decide : (('n' : Char) == '\n') = false)]
    have hcore : extractCore ('`' :: '`' :: '`' :: 'j' :: 's' :: 'o' :: 'n' :: '\n' ::
        (body.data ++ '\n' :: fenceChars)) = body.data ++ ['\n'] := by
      have h1 : ('`' :: '`' :: '`' :: 'j' :: 's' :: 'o' :: 'n' :: '\n' ::
          (body.data ++ '\n' :: fenceChars)).drop (7 + 1) =
          body.data ++ '\n' :: fenceChars := rfl
      simp only [extractCore, hnl, h1, hfi, htake]
    have hv3 : extractJsonFromText (mkFenced "json" body) = body := by
      show (if startsWithL fenceChars (jsTrim (mkFenced "json" body)).data then
          jsTrim ⟨extractCore (jsTrim (mkFenced "json" body)).data⟩
        else jsTrim ⟨(jsTrim (mkFenced "json" body)).data⟩) = body
      rw [htrimf, hstart, if_pos rfl, hdata, hcore]
      exact hjtnl
    exact ⟨hv1, hv3, hv1u, hv3u⟩

/-- C6 witness: the statement at the fenced object produced from tag `json` and
body `{}`. -/
theorem claim_C6_fence_stripping_witness :
    stripFencesV1 (mkFenced "json" "{}") = "{}" ∧
    extractJsonFromText (mkFenced "json" "{}") = "{}" ∧
    stripFencesV1 "{}" = "{}" ∧
    extractJsonFromText "{}" = "{}" :=
  claim_C6_fence_stripping "json" "{}" (by decide) (by decide) (by decide)

end SNA
